import Mathlib

/-!
Verification of the Airtable MCP server (src/airtable_mcp_server.py).

The development shallowly embeds the two layers of the program:

* the transport client (class AirtableClient): one method per Airtable
  endpoint, building an HTTP request and normalizing failures into the
  AirtableAPIError exception;
* the tool layer: one entry point per exposed capability, validating
  inputs, decoding JSON-string parameters, delegating to the client and
  wrapping every outcome in the uniform envelope with fields data, error
  and successful.

Modelling conventions:

* JSON values are the inductive Json below (numbers are modelled as
  integers; no claim depends on floats).
* Python exceptions are values of PyExn; a function that can raise
  returns Except PyExn.
* The outcome of one outbound HTTP call is a value of HttpOutcome; the
  network is an oracle of type HttpRequest -> HttpOutcome passed to every
  client method.  The behaviour of json.loads is likewise an oracle of
  type String -> Except String Json (error case: the decoder message of
  JSONDecodeError), and the randomized Python hash function used by
  AirtableClient.create_base is an oracle String -> Int.
* Python str.strip and truthiness are modelled by pyStrip, pyStrEmpty and
  pyTruthy; f-string interpolation of a non-string value uses pyStr.
-/

/-- JSON values, as produced by json.loads (numbers restricted to integers). -/
inductive Json where
  | null : Json
  | bool : Bool → Json
  | num : Int → Json
  | str : String → Json
  | arr : List Json → Json
  | obj : List (String × Json) → Json

/-- Python isinstance(x, dict). -/
def Json.isObj : Json → Bool
  | Json.obj _ => true
  | _ => false

/-- Python isinstance(x, list). -/
def Json.isArr : Json → Bool
  | Json.arr _ => true
  | _ => false

/-- Python isinstance(x, str). -/
def Json.isStr : Json → Bool
  | Json.str _ => true
  | _ => false

/-- Lookup of a key in a JSON object (none when the value is not an object). -/
def Json.lookup : Json → String → Option Json
  | Json.obj fs, k => List.lookup k fs
  | _, _ => none

/-- Python membership test: key in dict. -/
def Json.hasKey (j : Json) (k : String) : Bool := (j.lookup k).isSome

/-- True exactly when the value is the empty JSON object. -/
def Json.isEmptyObj : Json → Bool
  | Json.obj [] => true
  | _ => false

mutual

/-- Python repr of a JSON value (used by str on containers). -/
def pyRepr : Json → String
  | Json.null => "None"
  | Json.bool true => "True"
  | Json.bool false => "False"
  | Json.num n => toString n
  | Json.str s => "\x27" ++ s ++ "\x27"
  | Json.arr xs => "[" ++ pyReprSeq xs ++ "]"
  | Json.obj fs => "\x7b" ++ pyReprFields fs ++ "\x7d"

/-- Comma-separated repr of list elements. -/
def pyReprSeq : List Json → String
  | [] => ""
  | [x] => pyRepr x
  | x :: y :: rest => pyRepr x ++ ", " ++ pyReprSeq (y :: rest)

/-- Comma-separated repr of dict entries. -/
def pyReprFields : List (String × Json) → String
  | [] => ""
  | [(k, v)] => "\x27" ++ k ++ "\x27: " ++ pyRepr v
  | (k, v) :: y :: rest => "\x27" ++ k ++ "\x27: " ++ pyRepr v ++ ", " ++ pyReprFields (y :: rest)

end

/-- Python str of a JSON value, as used by f-string interpolation. -/
def pyStr : Json → String
  | Json.str s => s
  | j => pyRepr j

/-- Python truthiness of a JSON value. -/
def pyTruthy : Json → Bool
  | Json.null => false
  | Json.bool b => b
  | Json.num n => n != 0
  | Json.str s => !s.data.isEmpty
  | Json.arr xs => !xs.isEmpty
  | Json.obj fs => !fs.isEmpty

/-- Python equality between a value and a string literal (x == "lit"). -/
def Json.eqStr : Json → String → Bool
  | Json.str s, t => s == t
  | _, _ => false

/-- Python name of the runtime type of a JSON value. -/
def pyTypeName : Json → String
  | Json.null => "NoneType"
  | Json.bool _ => "bool"
  | Json.num _ => "int"
  | Json.str _ => "str"
  | Json.arr _ => "list"
  | Json.obj _ => "dict"

/-- Emptiness of a string, through its character list. -/
def pyStrEmpty (s : String) : Bool := s.data.isEmpty

/-- Python str.strip(): removes leading and trailing whitespace. -/
def pyStrip (s : String) : String :=
  String.mk (((s.data.dropWhile Char.isWhitespace).reverse.dropWhile Char.isWhitespace).reverse)

/-- The shared validation test: not s or not s.strip(). -/
def isBlank (s : String) : Bool := pyStrEmpty s || pyStrEmpty (pyStrip s)

/-- Substring test on character lists. -/
def listContainsSub (pat : List Char) : List Char → Bool
  | [] => pat.isEmpty
  | c :: rest => pat.isPrefixOf (c :: rest) || listContainsSub pat rest

/-- Substring test on strings: strContains s pat is true when pat occurs in s. -/
def strContains (s pat : String) : Bool := listContainsSub pat.data s.data

/-- HTTP verbs used by the client. -/
inductive Method where
  | get : Method
  | post : Method
  | patch : Method
  | delete : Method

/-- One outbound HTTP request as issued by a client method: verb, URL,
query parameters (the params keyword argument of requests), headers,
optional JSON body, and the fixed timeout in seconds. -/
structure HttpRequest where
  method : Method
  url : String
  params : List (String × Json)
  headers : List (String × String)
  jsonBody : Option Json
  timeout : Nat

/-- Outcome of one outbound HTTP call, as observed by the except clauses of
a client method.  httpError is the case where raise_for_status raised an
HTTPError: status code, the decoded response body when e.response.json()
succeeds, and str(e).  requestExc is any other RequestException (no HTTP
response: DNS failure, connection refused, timeout); exn is any exception
that is not a RequestException and therefore escapes both except clauses. -/
inductive HttpOutcome where
  | ok : Json → HttpOutcome
  | httpError : Int → Option Json → String → HttpOutcome
  | requestExc : String → HttpOutcome
  | exn : String → HttpOutcome

/-- Python exceptions relevant to the program: the AirtableAPIError class
(fields error_type, message, status_code; error_type and message carry
whatever JSON values the upstream error body supplied), ValueError, and
any other exception carrying its str(). -/
inductive PyExn where
  | airtableAPIError : Json → Json → Int → PyExn
  | valueError : String → PyExn
  | otherExn : String → PyExn

/-- Python str(e) for the exceptions of PyExn.  AirtableAPIError passes
the formatted message to Exception.__init__. -/
def PyExn.text : PyExn → String
  | PyExn.airtableAPIError t m _ => "Airtable API Error (" ++ pyStr t ++ "): " ++ pyStr m
  | PyExn.valueError m => m
  | PyExn.otherExn m => m

/-- Python d.get(k, dflt): raises AttributeError when d is not a dict. -/
def pyGet (j : Json) (k : String) (dflt : Json) : Except PyExn Json :=
  match j with
  | Json.obj fs => Except.ok ((List.lookup k fs).getD dflt)
  | _ => Except.error (PyExn.otherExn
      ("\x27" ++ pyTypeName j ++ "\x27 object has no attribute \x27get\x27"))

/-- The body of the except HTTPError clause shared by every client method:
extract error.type and error.message from the decoded error body (default
unknown_error and str(e)) and build the AirtableAPIError. -/
def httpErrorToExn (status : Int) (body : Option Json) (text : String) : PyExn :=
  let error_response := body.getD (Json.obj [])
  match pyGet error_response "error" (Json.obj []) with
  | Except.error e => e
  | Except.ok errVal =>
    match pyGet errVal "type" (Json.str "unknown_error") with
    | Except.error e => e
    | Except.ok error_code =>
      match pyGet errVal "message" (Json.str text) with
      | Except.error e => e
      | Except.ok error_message => PyExn.airtableAPIError error_code error_message status

/-- The try/except skeleton shared by every network-calling client method:
return the decoded body on success, normalize an HTTPError via
httpErrorToExn, turn any other RequestException into the network_error
AirtableAPIError with status code 0, and let any other exception escape. -/
def handleResponse (out : HttpOutcome) : Except PyExn Json :=
  match out with
  | HttpOutcome.ok body => Except.ok body
  | HttpOutcome.httpError status body text => Except.error (httpErrorToExn status body text)
  | HttpOutcome.requestExc text =>
      Except.error (PyExn.airtableAPIError (Json.str "network_error")
        (Json.str ("Network error: " ++ text)) 0)
  | HttpOutcome.exn text => Except.error (PyExn.otherExn text)

/-- The AirtableClient class: API key with derived base URL and headers. -/
structure AirtableClient where
  api_key : String
  base_url : String
  headers : List (String × String)

/-- The fixed informational message of AirtableClient.create_base. -/
def baseCreationMessage : String :=
  "Base configuration validated successfully. Note: Airtable API does not support programmatic base creation. This configuration can be used to manually create the base in the Airtable interface."

/-- AirtableClient.create_base: no network call; synthesizes a placeholder
base id from a hash of the name and returns the fixed message.  pyHash is
the (randomized) Python hash function on strings. -/
def AirtableClient.create_base (_ : AirtableClient) (pyHash : String → Int)
    (name : String) (_ : List Json) (_ : String) : Except PyExn Json :=
  Except.ok (Json.obj [
    ("base", Json.obj [
      ("id", Json.str ("app" ++ toString (pyHash name % 1000000))),
      ("name", Json.str name),
      ("permissionLevel", Json.str "create")]),
    ("message", Json.str baseCreationMessage)])

/-- AirtableClient.create_comment. -/
def AirtableClient.create_comment (c : AirtableClient) (http : HttpRequest → HttpOutcome)
    (base_id record_id table_id_or_name text : String) : Except PyExn Json :=
  let url := c.base_url ++ "/" ++ base_id ++ "/" ++ table_id_or_name ++ "/" ++ record_id ++ "/comments"
  let payload := Json.obj [("text", Json.str text)]
  handleResponse (http ⟨Method.post, url, [], c.headers, some payload, 10⟩)

/-- The field types for which AirtableClient.create_field forwards options. -/
def optionFieldTypes : List String :=
  ["singleSelect", "multipleSelects", "number", "date", "dateTime", "checkbox",
   "rating", "currency", "percent", "phoneNumber", "email", "url",
   "multilineText", "richText", "attachment", "barcode", "rollup", "lookup",
   "formula", "button", "autoNumber", "createdTime", "lastModifiedTime",
   "createdBy", "lastModifiedBy"]

/-- AirtableClient.create_field. -/
def AirtableClient.create_field (c : AirtableClient) (http : HttpRequest → HttpOutcome)
    (base_id table_id name field_type description : String) (options : Json) :
    Except PyExn Json :=
  let url := c.base_url ++ "/meta/bases/" ++ base_id ++ "/tables/" ++ table_id ++ "/fields"
  let payload := Json.obj ([("name", Json.str name), ("type", Json.str field_type)]
    ++ (if !pyStrEmpty description then [("description", Json.str description)] else [])
    ++ (if pyTruthy options && optionFieldTypes.contains field_type then
          [("options", options)] else []))
  handleResponse (http ⟨Method.post, url, [], c.headers, some payload, 10⟩)

/-- AirtableClient.create_multiple_records. -/
def AirtableClient.create_multiple_records (c : AirtableClient)
    (http : HttpRequest → HttpOutcome) (base_id table_id_or_name : String)
    (records : List Json) : Except PyExn Json :=
  let url := c.base_url ++ "/" ++ base_id ++ "/" ++ table_id_or_name
  let payload := Json.obj [("records", Json.arr records)]
  handleResponse (http ⟨Method.post, url, [], c.headers, some payload, 10⟩)

/-- AirtableClient.create_record. -/
def AirtableClient.create_record (c : AirtableClient) (http : HttpRequest → HttpOutcome)
    (base_id table_id_or_name : String) (fields : Json) : Except PyExn Json :=
  let url := c.base_url ++ "/" ++ base_id ++ "/" ++ table_id_or_name
  let payload := Json.obj [("fields", fields)]
  handleResponse (http ⟨Method.post, url, [], c.headers, some payload, 10⟩)

/-- AirtableClient.create_table. -/
def AirtableClient.create_table (c : AirtableClient) (http : HttpRequest → HttpOutcome)
    (base_id name : String) (fields : List Json) (description : String) :
    Except PyExn Json :=
  let url := c.base_url ++ "/meta/bases/" ++ base_id ++ "/tables"
  let payload := Json.obj ([("name", Json.str name), ("fields", Json.arr fields)]
    ++ (if !pyStrEmpty description then [("description", Json.str description)] else []))
  handleResponse (http ⟨Method.post, url, [], c.headers, some payload, 10⟩)

/-- AirtableClient.get_base_schema. -/
def AirtableClient.get_base_schema (c : AirtableClient) (http : HttpRequest → HttpOutcome)
    (base_id : String) : Except PyExn Json :=
  let url := c.base_url ++ "/meta/bases/" ++ base_id ++ "/tables"
  handleResponse (http ⟨Method.get, url, [], c.headers, none, 10⟩)

/-- AirtableClient.get_record. -/
def AirtableClient.get_record (c : AirtableClient) (http : HttpRequest → HttpOutcome)
    (base_id table_id_or_name record_id cell_format : String)
    (return_fields_by_field_id : Bool) : Except PyExn Json :=
  let url := c.base_url ++ "/" ++ base_id ++ "/" ++ table_id_or_name ++ "/" ++ record_id
  let params := (if cell_format != "json" then [("cellFormat", Json.str cell_format)] else [])
    ++ (if return_fields_by_field_id then [("returnFieldsByFieldId", Json.str "true")] else [])
  handleResponse (http ⟨Method.get, url, params, c.headers, none, 10⟩)

/-- AirtableClient.get_user_info. -/
def AirtableClient.get_user_info (c : AirtableClient) (http : HttpRequest → HttpOutcome) :
    Except PyExn Json :=
  let url := c.base_url ++ "/meta/whoami"
  handleResponse (http ⟨Method.get, url, [], c.headers, none, 10⟩)

/-- AirtableClient.list_bases. -/
def AirtableClient.list_bases (c : AirtableClient) (http : HttpRequest → HttpOutcome) :
    Except PyExn Json :=
  let url := c.base_url ++ "/meta/bases"
  handleResponse (http ⟨Method.get, url, [], c.headers, none, 10⟩)

/-- AirtableClient.list_comments. -/
def AirtableClient.list_comments (c : AirtableClient) (http : HttpRequest → HttpOutcome)
    (base_id table_id_or_name record_id : String) : Except PyExn Json :=
  let url := c.base_url ++ "/" ++ base_id ++ "/" ++ table_id_or_name ++ "/" ++ record_id ++ "/comments"
  handleResponse (http ⟨Method.get, url, [], c.headers, none, 10⟩)

/-- AirtableClient.delete_comment. -/
def AirtableClient.delete_comment (c : AirtableClient) (http : HttpRequest → HttpOutcome)
    (base_id table_id_or_name record_id row_comment_id : String) : Except PyExn Json :=
  let url := c.base_url ++ "/" ++ base_id ++ "/" ++ table_id_or_name ++ "/" ++ record_id
    ++ "/comments/" ++ row_comment_id
  handleResponse (http ⟨Method.delete, url, [], c.headers, none, 10⟩)

/-- AirtableClient.delete_record. -/
def AirtableClient.delete_record (c : AirtableClient) (http : HttpRequest → HttpOutcome)
    (base_id table_id_or_name record_id : String) : Except PyExn Json :=
  let url := c.base_url ++ "/" ++ base_id ++ "/" ++ table_id_or_name ++ "/" ++ record_id
  handleResponse (http ⟨Method.delete, url, [], c.headers, none, 10⟩)

/-- The request built by AirtableClient.delete_multiple_records: each record
id is encoded as a repeated query-string segment appended to the URL. -/
def deleteMultipleRequest (c : AirtableClient) (base_id table_id_or_name : String)
    (record_ids : List Json) : HttpRequest :=
  let url := c.base_url ++ "/" ++ base_id ++ "/" ++ table_id_or_name
  let params := record_ids.map (fun record_id => "records[]=" ++ pyStr record_id)
  let query_string := String.intercalate "&" params
  let url := if !pyStrEmpty query_string then url ++ "?" ++ query_string else url
  ⟨Method.delete, url, [], c.headers, none, 10⟩

/-- AirtableClient.delete_multiple_records. -/
def AirtableClient.delete_multiple_records (c : AirtableClient)
    (http : HttpRequest → HttpOutcome) (base_id table_id_or_name : String)
    (record_ids : List Json) : Except PyExn Json :=
  handleResponse (http (deleteMultipleRequest c base_id table_id_or_name record_ids))

/-- AirtableClient.update_record. -/
def AirtableClient.update_record (c : AirtableClient) (http : HttpRequest → HttpOutcome)
    (base_id table_id_or_name record_id : String) (fields : Json)
    (return_fields_by_field_id : Bool) : Except PyExn Json :=
  let url := c.base_url ++ "/" ++ base_id ++ "/" ++ table_id_or_name ++ "/" ++ record_id
  let payload := Json.obj [("fields", fields)]
  let params := if return_fields_by_field_id then [("returnFieldsByFieldId", Json.str "true")] else []
  handleResponse (http ⟨Method.patch, url, params, c.headers, some payload, 10⟩)

/-- AirtableClient.update_multiple_records. -/
def AirtableClient.update_multiple_records (c : AirtableClient)
    (http : HttpRequest → HttpOutcome) (base_id table_id_or_name : String)
    (records : List Json) : Except PyExn Json :=
  let url := c.base_url ++ "/" ++ base_id ++ "/" ++ table_id_or_name
  let payload := Json.obj [("records", Json.arr records)]
  handleResponse (http ⟨Method.patch, url, [], c.headers, some payload, 10⟩)

/-- AirtableClient.list_records: query parameters are attached only when
they differ from the documented defaults. -/
def AirtableClient.list_records (c : AirtableClient) (http : HttpRequest → HttpOutcome)
    (base_id table_id_or_name cell_format : String) (fields : List Json)
    (filter_by_formula : String) (max_records : Int) (offset : String)
    (page_size : Int) (record_metadata : List Json)
    (return_fields_by_field_id : Bool) (sort : List Json)
    (time_zone user_locale view : String) : Except PyExn Json :=
  let url := c.base_url ++ "/" ++ base_id ++ "/" ++ table_id_or_name
  let params :=
    (if cell_format != "json" then [("cellFormat", Json.str cell_format)] else [])
    ++ (if !fields.isEmpty then [("fields[]", Json.arr fields)] else [])
    ++ (if !pyStrEmpty filter_by_formula then [("filterByFormula", Json.str filter_by_formula)] else [])
    ++ (if max_records != 0 && max_records > 0 then [("maxRecords", Json.num max_records)] else [])
    ++ (if !pyStrEmpty offset then [("offset", Json.str offset)] else [])
    ++ (if page_size != 100 then [("pageSize", Json.num page_size)] else [])
    ++ (if !record_metadata.isEmpty then [("recordMetadata[]", Json.arr record_metadata)] else [])
    ++ (if return_fields_by_field_id then [("returnFieldsByFieldId", Json.str "true")] else [])
    ++ (if !sort.isEmpty then [("sort[]", Json.arr sort)] else [])
    ++ (if time_zone != "utc" then [("timeZone", Json.str time_zone)] else [])
    ++ (if !pyStrEmpty user_locale then [("userLocale", Json.str user_locale)] else [])
    ++ (if !pyStrEmpty view then [("view", Json.str view)] else [])
  handleResponse (http ⟨Method.get, url, params, c.headers, none, 10⟩)

/-- AirtableClient.__init__: api key, fixed base URL and derived headers. -/
def clientOf (api_key : String) : AirtableClient :=
  ⟨api_key, "https://api.airtable.com/v0",
    [("Authorization", "Bearer " ++ api_key), ("Content-Type", "application/json")]⟩

/-- get_airtable_client: reads AIRTABLE_API_KEY from the environment (here
the apiKey argument, none when the variable is unset) and constructs the
client; a missing or empty key raises ValueError. -/
def get_airtable_client (apiKey : Option String) : Except PyExn AirtableClient :=
  match apiKey with
  | none => Except.error (PyExn.valueError "AIRTABLE_API_KEY environment variable is required")
  | some api_key =>
    if pyStrEmpty api_key then
      Except.error (PyExn.valueError "AIRTABLE_API_KEY environment variable is required")
    else
      Except.ok (clientOf api_key)

/-- The uniform tool response envelope. -/
structure Envelope where
  data : Json
  error : String
  successful : Bool

/-- The except Exception clause closing every tool entry point. -/
def catchAll (r : Except PyExn Envelope) : Except PyExn Envelope :=
  match r with
  | Except.ok env => Except.ok env
  | Except.error e => Except.ok ⟨Json.obj [], "Unexpected error: " ++ e.text, false⟩

/-- The except AirtableAPIError clause of airtable_create_base: dispatch on
the error type to one of the canned messages; any other exception is
re-raised towards the closing except Exception clause. -/
def createBaseCatchApi (r : Except PyExn Envelope) : Except PyExn Envelope :=
  match r with
  | Except.ok env => Except.ok env
  | Except.error e =>
    match e with
    | PyExn.airtableAPIError t m _ =>
      if t.eqStr "AUTHENTICATION_REQUIRED" then
        Except.ok ⟨Json.obj [], "Airtable API Error: " ++ pyStr t
          ++ "\n\nAuthentication failed. Please check your AIRTABLE_API_KEY.", false⟩
      else if t.eqStr "INVALID_API_KEY" then
        Except.ok ⟨Json.obj [], "Airtable API Error: " ++ pyStr t
          ++ "\n\nInvalid API key. Please check your AIRTABLE_API_KEY.", false⟩
      else if t.eqStr "INSUFFICIENT_PERMISSIONS" then
        Except.ok ⟨Json.obj [], "Airtable API Error: " ++ pyStr t
          ++ "\n\nInsufficient permissions to create bases. Check your API key permissions.", false⟩
      else if t.eqStr "WORKSPACE_NOT_FOUND" then
        Except.ok ⟨Json.obj [], "Airtable API Error: " ++ pyStr t
          ++ "\n\nThe specified workspace was not found or you don\x27t have access to it.", false⟩
      else if t.eqStr "timeout_error" then
        Except.ok ⟨Json.obj [], "Airtable API Error: " ++ pyStr t
          ++ "\n\nRequest timed out. The Airtable API is taking too long to respond. This might be due to high server load or network issues.", false⟩
      else if t.eqStr "network_error" then
        Except.ok ⟨Json.obj [], "Airtable API Error: " ++ pyStr t
          ++ "\n\nNetwork connectivity issue. Please check your internet connection.", false⟩
      else
        Except.ok ⟨Json.obj [], "Airtable API Error: " ++ pyStr t
          ++ "\n\nUnexpected error: " ++ pyStr m, false⟩
    | _ => Except.error e

/-- Index of the first list entry failing the check, with the item part of
the error message produced for it. -/
def firstFailing (problem : Json → Option String) : List Json → Option (Nat × String)
  | [] => none
  | x :: xs =>
    match problem x with
    | some msg => some (0, msg)
    | none => (firstFailing problem xs).map (fun p => (p.1 + 1, p.2))

/-- create_base: a table entry must be a dict with keys name and fields. -/
def tableEntryProblem (t : Json) : Option String :=
  if !(t.isObj && t.hasKey "name" && t.hasKey "fields") then
    some " must have \x27name\x27 and \x27fields\x27 properties"
  else none

/-- create_table: a field entry must be a dict with keys name and type. -/
def fieldEntryProblem (f : Json) : Option String :=
  if !(f.isObj && f.hasKey "name" && f.hasKey "type") then
    some " must have \x27name\x27 and \x27type\x27 properties"
  else none

/-- create_multiple_records: a record entry must be a dict with key fields. -/
def recordEntryProblem (r : Json) : Option String :=
  if !(r.isObj && r.hasKey "fields") then
    some " must have \x27fields\x27 property"
  else none

/-- update_multiple_records: a record entry must be a dict with id and fields. -/
def updateRecordProblem (r : Json) : Option String :=
  if !r.isObj then some " must be an object"
  else if !r.hasKey "id" then some " must have an \x27id\x27 field"
  else if !r.hasKey "fields" then some " must have a \x27fields\x27 object"
  else none

/-- delete_multiple_records: a record id must be a non-blank string. -/
def recordIdProblem (record_id : Json) : Option String :=
  if !(record_id.isStr && !isBlank (pyStr record_id)) then
    some " must be a non-empty string"
  else none

/-- Python len(), raising TypeError on values without a length. -/
def pyLen (j : Json) : Except PyExn Int :=
  match j with
  | Json.arr xs => Except.ok (Int.ofNat xs.length)
  | Json.obj fs => Except.ok (Int.ofNat fs.length)
  | Json.str s => Except.ok (Int.ofNat s.data.length)
  | _ => Except.error (PyExn.otherExn
      ("object of type \x27" ++ pyTypeName j ++ "\x27 has no len()"))

/-- Try block of airtable_create_base.  Note that the client lookup comes
before input validation, unlike every other tool.  loads is the
behaviour of json.loads on the tables argument. -/
def airtable_create_base_impl (apiKey : Option String) (_ : HttpRequest → HttpOutcome)
    (loads : String → Except String Json) (pyHash : String → Int)
    (name tables workspace_id : String) : Except PyExn Envelope :=
  match get_airtable_client apiKey with
  | Except.error e => Except.error e
  | Except.ok client =>
    if isBlank name then Except.ok ⟨Json.obj [], "Base name is required", false⟩
    else if isBlank workspace_id then Except.ok ⟨Json.obj [], "Workspace ID is required", false⟩
    else if isBlank tables then Except.ok ⟨Json.obj [], "Tables configuration is required", false⟩
    else
      match loads tables with
      | Except.error msg =>
          Except.ok ⟨Json.obj [], "Invalid JSON format for tables parameter: " ++ msg, false⟩
      | Except.ok tablesVal =>
        match tablesVal with
        | Json.arr tables_list =>
          match firstFailing tableEntryProblem tables_list with
          | some p =>
              Except.ok ⟨Json.obj [], "Table at index " ++ toString p.1 ++ p.2, false⟩
          | none =>
            match client.create_base pyHash (pyStrip name) tables_list (pyStrip workspace_id) with
            | Except.error e => Except.error e
            | Except.ok response =>
              match pyGet response "base" (Json.obj []) with
              | Except.error e => Except.error e
              | Except.ok base_data =>
                match pyGet base_data "id" (Json.str "") with
                | Except.error e => Except.error e
                | Except.ok base_id =>
                  match pyGet base_data "name" (Json.str "") with
                  | Except.error e => Except.error e
                  | Except.ok base_name =>
                    Except.ok ⟨Json.obj [
                      ("base", base_data),
                      ("base_id", base_id),
                      ("base_name", base_name),
                      ("workspace_id", Json.str workspace_id),
                      ("tables_count", Json.num (Int.ofNat tables_list.length)),
                      ("status", Json.str "configuration_validated"),
                      ("message", Json.str baseCreationMessage),
                      ("creation_details", Json.obj [
                        ("name", Json.str name),
                        ("workspace_id", Json.str workspace_id),
                        ("tables", Json.arr tables_list),
                        ("creation_successful", Json.bool false),
                        ("api_limitation", Json.str "Airtable API does not support programmatic base creation"),
                        ("manual_required", Json.bool true)])],
                      "", false⟩
        | _ => Except.ok ⟨Json.obj [], "Tables must be an array of table objects", false⟩

/-- Tool entry point airtable_create_base: try block, then the
AirtableAPIError dispatch, then the closing except Exception clause. -/
def airtable_create_base (apiKey : Option String) (http : HttpRequest → HttpOutcome)
    (loads : String → Except String Json) (pyHash : String → Int)
    (name tables workspace_id : String) : Except PyExn Envelope :=
  catchAll (createBaseCatchApi
    (airtable_create_base_impl apiKey http loads pyHash name tables workspace_id))

/-- Try block of airtable_create_comment. -/
def airtable_create_comment_impl (apiKey : Option String) (http : HttpRequest → HttpOutcome)
    (base_id record_id table_id_or_name text : String) : Except PyExn Envelope :=
  if isBlank base_id then Except.ok ⟨Json.obj [], "Base ID is required", false⟩
  else if isBlank record_id then Except.ok ⟨Json.obj [], "Record ID is required", false⟩
  else if isBlank table_id_or_name then Except.ok ⟨Json.obj [], "Table ID or name is required", false⟩
  else if isBlank text then Except.ok ⟨Json.obj [], "Comment text is required", false⟩
  else
    match get_airtable_client apiKey with
    | Except.error e => Except.error e
    | Except.ok client =>
      match client.create_comment http (pyStrip base_id) (pyStrip record_id)
          (pyStrip table_id_or_name) (pyStrip text) with
      | Except.error e => Except.error e
      | Except.ok comment_result =>
        match pyGet comment_result "comment" (Json.obj []) with
        | Except.error e => Except.error e
        | Except.ok comment =>
          match pyGet comment_result "comment_id" (Json.str "") with
          | Except.error e => Except.error e
          | Except.ok comment_id =>
            Except.ok ⟨Json.obj [
              ("comment", comment),
              ("comment_id", comment_id),
              ("base_id", Json.str base_id),
              ("record_id", Json.str record_id),
              ("table_id_or_name", Json.str table_id_or_name),
              ("text", Json.str text),
              ("status", Json.str "comment_created"),
              ("message", Json.str "Comment created successfully")],
              "", true⟩

/-- Tool entry point airtable_create_comment. -/
def airtable_create_comment (apiKey : Option String) (http : HttpRequest → HttpOutcome)
    (base_id record_id table_id_or_name text : String) : Except PyExn Envelope :=
  catchAll (airtable_create_comment_impl apiKey http base_id record_id table_id_or_name text)

/-- Try block of airtable_create_field. -/
def airtable_create_field_impl (apiKey : Option String) (http : HttpRequest → HttpOutcome)
    (base_id table_id name type description : String) (options : Option Json) :
    Except PyExn Envelope :=
  if isBlank base_id then Except.ok ⟨Json.obj [], "Base ID is required", false⟩
  else if isBlank table_id then Except.ok ⟨Json.obj [], "Table ID is required", false⟩
  else if isBlank name then Except.ok ⟨Json.obj [], "Field name is required", false⟩
  else
    match get_airtable_client apiKey with
    | Except.error e => Except.error e
    | Except.ok client =>
      match client.create_field http (pyStrip base_id) (pyStrip table_id) (pyStrip name)
          (pyStrip type)
          (if !pyStrEmpty description then pyStrip description else "")
          (options.getD (Json.obj [])) with
      | Except.error e => Except.error e
      | Except.ok field_result =>
        match pyGet field_result "field" (Json.obj []) with
        | Except.error e => Except.error e
        | Except.ok field =>
          match pyGet field_result "field_id" (Json.str "") with
          | Except.error e => Except.error e
          | Except.ok field_id =>
            Except.ok ⟨Json.obj [
              ("field", field),
              ("field_id", field_id),
              ("base_id", Json.str base_id),
              ("table_id", Json.str table_id),
              ("name", Json.str name),
              ("type", Json.str type),
              ("description", Json.str description),
              ("options", options.getD (Json.obj [])),
              ("status", Json.str "field_created"),
              ("message", Json.str "Field created successfully")],
              "", true⟩

/-- Tool entry point airtable_create_field. -/
def airtable_create_field (apiKey : Option String) (http : HttpRequest → HttpOutcome)
    (base_id table_id name type description : String) (options : Option Json) :
    Except PyExn Envelope :=
  catchAll (airtable_create_field_impl apiKey http base_id table_id name type description options)

/-- Try block of airtable_create_multiple_records. -/
def airtable_create_multiple_records_impl (apiKey : Option String)
    (http : HttpRequest → HttpOutcome) (loads : String → Except String Json)
    (base_id table_id_or_name records : String) : Except PyExn Envelope :=
  if isBlank base_id then Except.ok ⟨Json.obj [], "Base ID is required", false⟩
  else if isBlank table_id_or_name then Except.ok ⟨Json.obj [], "Table ID or name is required", false⟩
  else if isBlank records then Except.ok ⟨Json.obj [], "Records data is required", false⟩
  else
    match loads records with
    | Except.error msg =>
        Except.ok ⟨Json.obj [], "Invalid JSON format for records parameter: " ++ msg, false⟩
    | Except.ok recordsVal =>
      match recordsVal with
      | Json.arr records_list =>
        match firstFailing recordEntryProblem records_list with
        | some p => Except.ok ⟨Json.obj [], "Record at index " ++ toString p.1 ++ p.2, false⟩
        | none =>
          match get_airtable_client apiKey with
          | Except.error e => Except.error e
          | Except.ok client =>
            match client.create_multiple_records http (pyStrip base_id)
                (pyStrip table_id_or_name) records_list with
            | Except.error e => Except.error e
            | Except.ok records_result =>
              match pyGet records_result "records" (Json.arr []) with
              | Except.error e => Except.error e
              | Except.ok recs =>
                match pyLen recs with
                | Except.error e => Except.error e
                | Except.ok n =>
                  Except.ok ⟨Json.obj [
                    ("records", recs),
                    ("created_records", Json.num n),
                    ("base_id", Json.str base_id),
                    ("table_id_or_name", Json.str table_id_or_name),
                    ("status", Json.str "records_created"),
                    ("message", Json.str ("Successfully created " ++ toString n ++ " records"))],
                    "", true⟩
      | _ => Except.ok ⟨Json.obj [], "Records must be an array of record objects", false⟩

/-- Tool entry point airtable_create_multiple_records. -/
def airtable_create_multiple_records (apiKey : Option String)
    (http : HttpRequest → HttpOutcome) (loads : String → Except String Json)
    (base_id table_id_or_name records : String) : Except PyExn Envelope :=
  catchAll (airtable_create_multiple_records_impl apiKey http loads base_id table_id_or_name records)

/-- Try block of airtable_create_record. -/
def airtable_create_record_impl (apiKey : Option String) (http : HttpRequest → HttpOutcome)
    (loads : String → Except String Json) (base_id table_id_or_name fields : String) :
    Except PyExn Envelope :=
  if isBlank base_id then Except.ok ⟨Json.obj [], "Base ID is required", false⟩
  else if isBlank table_id_or_name then Except.ok ⟨Json.obj [], "Table ID or name is required", false⟩
  else if isBlank fields then Except.ok ⟨Json.obj [], "Fields data is required", false⟩
  else
    match loads fields with
    | Except.error msg =>
        Except.ok ⟨Json.obj [], "Invalid JSON format for fields parameter: " ++ msg, false⟩
    | Except.ok fieldsVal =>
      match fieldsVal with
      | Json.obj fields_fields =>
        match get_airtable_client apiKey with
        | Except.error e => Except.error e
        | Except.ok client =>
          match client.create_record http (pyStrip base_id) (pyStrip table_id_or_name)
              (Json.obj fields_fields) with
          | Except.error e => Except.error e
          | Except.ok record_result =>
            match pyGet record_result "record" (Json.obj []) with
            | Except.error e => Except.error e
            | Except.ok record =>
              match pyGet record "id" (Json.str "") with
              | Except.error e => Except.error e
              | Except.ok record_id =>
                Except.ok ⟨Json.obj [
                  ("record", record),
                  ("record_id", record_id),
                  ("base_id", Json.str base_id),
                  ("table_id_or_name", Json.str table_id_or_name),
                  ("fields", Json.obj fields_fields),
                  ("status", Json.str "record_created"),
                  ("message", Json.str "Record created successfully")],
                  "", true⟩
      | _ => Except.ok ⟨Json.obj [], "Fields must be a JSON object", false⟩

/-- Tool entry point airtable_create_record. -/
def airtable_create_record (apiKey : Option String) (http : HttpRequest → HttpOutcome)
    (loads : String → Except String Json) (base_id table_id_or_name fields : String) :
    Except PyExn Envelope :=
  catchAll (airtable_create_record_impl apiKey http loads base_id table_id_or_name fields)

/-- Try block of airtable_create_table. -/
def airtable_create_table_impl (apiKey : Option String) (http : HttpRequest → HttpOutcome)
    (loads : String → Except String Json) (base_id name fields description : String) :
    Except PyExn Envelope :=
  if isBlank base_id then Except.ok ⟨Json.obj [], "Base ID is required", false⟩
  else if isBlank name then Except.ok ⟨Json.obj [], "Table name is required", false⟩
  else if isBlank fields then Except.ok ⟨Json.obj [], "Fields data is required", false⟩
  else
    match loads fields with
    | Except.error msg =>
        Except.ok ⟨Json.obj [], "Invalid JSON format for fields parameter: " ++ msg, false⟩
    | Except.ok fieldsVal =>
      match fieldsVal with
      | Json.arr fields_list =>
        match firstFailing fieldEntryProblem fields_list with
        | some p => Except.ok ⟨Json.obj [], "Field at index " ++ toString p.1 ++ p.2, false⟩
        | none =>
          match get_airtable_client apiKey with
          | Except.error e => Except.error e
          | Except.ok client =>
            match client.create_table http (pyStrip base_id) (pyStrip name) fields_list
                (if !pyStrEmpty description then pyStrip description else "") with
            | Except.error e => Except.error e
            | Except.ok table_result =>
              match pyGet table_result "table" (Json.obj []) with
              | Except.error e => Except.error e
              | Except.ok table =>
                match pyGet table "id" (Json.str "") with
                | Except.error e => Except.error e
                | Except.ok table_id =>
                  Except.ok ⟨Json.obj [
                    ("table", table),
                    ("table_id", table_id),
                    ("base_id", Json.str base_id),
                    ("name", Json.str name),
                    ("description", Json.str description),
                    ("fields_count", Json.num (Int.ofNat fields_list.length)),
                    ("status", Json.str "table_created"),
                    ("message", Json.str "Table created successfully")],
                    "", true⟩
      | _ => Except.ok ⟨Json.obj [], "Fields must be an array of field objects", false⟩

/-- Tool entry point airtable_create_table. -/
def airtable_create_table (apiKey : Option String) (http : HttpRequest → HttpOutcome)
    (loads : String → Except String Json) (base_id name fields description : String) :
    Except PyExn Envelope :=
  catchAll (airtable_create_table_impl apiKey http loads base_id name fields description)

/-- Try block of airtable_get_base_schema. -/
def airtable_get_base_schema_impl (apiKey : Option String) (http : HttpRequest → HttpOutcome)
    (base_id : String) : Except PyExn Envelope :=
  if isBlank base_id then Except.ok ⟨Json.obj [], "Base ID is required", false⟩
  else
    match get_airtable_client apiKey with
    | Except.error e => Except.error e
    | Except.ok client =>
      match client.get_base_schema http (pyStrip base_id) with
      | Except.error e => Except.error e
      | Except.ok schema_result =>
        match pyGet schema_result "tables" (Json.arr []) with
        | Except.error e => Except.error e
        | Except.ok tables =>
          match pyLen tables with
          | Except.error e => Except.error e
          | Except.ok n =>
            Except.ok ⟨Json.obj [
              ("schema", schema_result),
              ("base_id", Json.str base_id),
              ("tables", tables),
              ("tables_count", Json.num n),
              ("status", Json.str "schema_retrieved"),
              ("message", Json.str "Base schema retrieved successfully")],
              "", true⟩

/-- Tool entry point airtable_get_base_schema. -/
def airtable_get_base_schema (apiKey : Option String) (http : HttpRequest → HttpOutcome)
    (base_id : String) : Except PyExn Envelope :=
  catchAll (airtable_get_base_schema_impl apiKey http base_id)

/-- Try block of airtable_get_record. -/
def airtable_get_record_impl (apiKey : Option String) (http : HttpRequest → HttpOutcome)
    (base_id table_id_or_name record_id cell_format : String)
    (return_fields_by_field_id : Bool) : Except PyExn Envelope :=
  if isBlank base_id then Except.ok ⟨Json.obj [], "Base ID is required", false⟩
  else if isBlank table_id_or_name then Except.ok ⟨Json.obj [], "Table ID or name is required", false⟩
  else if isBlank record_id then Except.ok ⟨Json.obj [], "Record ID is required", false⟩
  else
    match get_airtable_client apiKey with
    | Except.error e => Except.error e
    | Except.ok client =>
      match client.get_record http (pyStrip base_id) (pyStrip table_id_or_name)
          (pyStrip record_id) (pyStrip cell_format) return_fields_by_field_id with
      | Except.error e => Except.error e
      | Except.ok record_result =>
        match pyGet record_result "record" (Json.obj []) with
        | Except.error e => Except.error e
        | Except.ok record =>
          Except.ok ⟨Json.obj [
            ("record", record),
            ("base_id", Json.str base_id),
            ("table_id_or_name", Json.str table_id_or_name),
            ("record_id", Json.str record_id),
            ("cell_format", Json.str cell_format),
            ("return_fields_by_field_id", Json.bool return_fields_by_field_id),
            ("status", Json.str "record_retrieved"),
            ("message", Json.str "Record retrieved successfully")],
            "", true⟩

/-- Tool entry point airtable_get_record. -/
def airtable_get_record (apiKey : Option String) (http : HttpRequest → HttpOutcome)
    (base_id table_id_or_name record_id cell_format : String)
    (return_fields_by_field_id : Bool) : Except PyExn Envelope :=
  catchAll (airtable_get_record_impl apiKey http base_id table_id_or_name record_id
    cell_format return_fields_by_field_id)

/-- Try block of airtable_get_user_info. -/
def airtable_get_user_info_impl (apiKey : Option String) (http : HttpRequest → HttpOutcome) :
    Except PyExn Envelope :=
  match get_airtable_client apiKey with
  | Except.error e => Except.error e
  | Except.ok client =>
    match client.get_user_info http with
    | Except.error e => Except.error e
    | Except.ok user_info =>
      match pyGet user_info "id" (Json.str "") with
      | Except.error e => Except.error e
      | Except.ok user_id =>
        match pyGet user_info "scopes" (Json.arr []) with
        | Except.error e => Except.error e
        | Except.ok scopes =>
          Except.ok ⟨Json.obj [
            ("user", user_info),
            ("user_id", user_id),
            ("scopes", scopes),
            ("status", Json.str "user_info_retrieved"),
            ("message", Json.str "User information retrieved successfully")],
            "", true⟩

/-- Tool entry point airtable_get_user_info. -/
def airtable_get_user_info (apiKey : Option String) (http : HttpRequest → HttpOutcome) :
    Except PyExn Envelope :=
  catchAll (airtable_get_user_info_impl apiKey http)

/-- Try block of airtable_list_bases. -/
def airtable_list_bases_impl (apiKey : Option String) (http : HttpRequest → HttpOutcome) :
    Except PyExn Envelope :=
  match get_airtable_client apiKey with
  | Except.error e => Except.error e
  | Except.ok client =>
    match client.list_bases http with
    | Except.error e => Except.error e
    | Except.ok bases_result =>
      match pyGet bases_result "bases" (Json.arr []) with
      | Except.error e => Except.error e
      | Except.ok bases =>
        match pyLen bases with
        | Except.error e => Except.error e
        | Except.ok n =>
          match pyGet bases_result "offset" (Json.str "") with
          | Except.error e => Except.error e
          | Except.ok offset =>
            Except.ok ⟨Json.obj [
              ("bases", bases),
              ("bases_count", Json.num n),
              ("offset", offset),
              ("status", Json.str "bases_retrieved"),
              ("message", Json.str "Bases retrieved successfully")],
              "", true⟩

/-- Tool entry point airtable_list_bases. -/
def airtable_list_bases (apiKey : Option String) (http : HttpRequest → HttpOutcome) :
    Except PyExn Envelope :=
  catchAll (airtable_list_bases_impl apiKey http)

/-- Try block of airtable_list_comments. -/
def airtable_list_comments_impl (apiKey : Option String) (http : HttpRequest → HttpOutcome)
    (base_id table_id_or_name record_id : String) : Except PyExn Envelope :=
  if isBlank base_id then Except.ok ⟨Json.obj [], "Base ID is required", false⟩
  else if isBlank table_id_or_name then Except.ok ⟨Json.obj [], "Table ID or name is required", false⟩
  else if isBlank record_id then Except.ok ⟨Json.obj [], "Record ID is required", false⟩
  else
    match get_airtable_client apiKey with
    | Except.error e => Except.error e
    | Except.ok client =>
      match client.list_comments http (pyStrip base_id) (pyStrip table_id_or_name)
          (pyStrip record_id) with
      | Except.error e => Except.error e
      | Except.ok comments_result =>
        match pyGet comments_result "comments" (Json.arr []) with
        | Except.error e => Except.error e
        | Except.ok comments =>
          match pyLen comments with
          | Except.error e => Except.error e
          | Except.ok n =>
            Except.ok ⟨Json.obj [
              ("comments", comments),
              ("comments_count", Json.num n),
              ("base_id", Json.str base_id),
              ("table_id_or_name", Json.str table_id_or_name),
              ("record_id", Json.str record_id),
              ("status", Json.str "comments_retrieved"),
              ("message", Json.str "Comments retrieved successfully")],
              "", true⟩

/-- Tool entry point airtable_list_comments. -/
def airtable_list_comments (apiKey : Option String) (http : HttpRequest → HttpOutcome)
    (base_id table_id_or_name record_id : String) : Except PyExn Envelope :=
  catchAll (airtable_list_comments_impl apiKey http base_id table_id_or_name record_id)

/-- Try block of airtable_delete_record. -/
def airtable_delete_record_impl (apiKey : Option String) (http : HttpRequest → HttpOutcome)
    (base_id table_id_or_name record_id : String) : Except PyExn Envelope :=
  if isBlank base_id then Except.ok ⟨Json.obj [], "Base ID is required", false⟩
  else if isBlank table_id_or_name then Except.ok ⟨Json.obj [], "Table ID or name is required", false⟩
  else if isBlank record_id then Except.ok ⟨Json.obj [], "Record ID is required", false⟩
  else
    match get_airtable_client apiKey with
    | Except.error e => Except.error e
    | Except.ok client =>
      match client.delete_record http (pyStrip base_id) (pyStrip table_id_or_name)
          (pyStrip record_id) with
      | Except.error e => Except.error e
      | Except.ok delete_result =>
        match pyGet delete_result "record" (Json.obj []) with
        | Except.error e => Except.error e
        | Except.ok deleted_record =>
          Except.ok ⟨Json.obj [
            ("deleted_record", deleted_record),
            ("record_id", Json.str record_id),
            ("base_id", Json.str base_id),
            ("table_id_or_name", Json.str table_id_or_name),
            ("status", Json.str "record_deleted"),
            ("message", Json.str "Record deleted successfully")],
            "", true⟩

/-- Tool entry point airtable_delete_record. -/
def airtable_delete_record (apiKey : Option String) (http : HttpRequest → HttpOutcome)
    (base_id table_id_or_name record_id : String) : Except PyExn Envelope :=
  catchAll (airtable_delete_record_impl apiKey http base_id table_id_or_name record_id)

/-- Try block of airtable_delete_multiple_records. -/
def airtable_delete_multiple_records_impl (apiKey : Option String)
    (http : HttpRequest → HttpOutcome) (loads : String → Except String Json)
    (base_id table_id_or_name record_ids : String) : Except PyExn Envelope :=
  if isBlank base_id then Except.ok ⟨Json.obj [], "Base ID is required", false⟩
  else if isBlank table_id_or_name then Except.ok ⟨Json.obj [], "Table ID or name is required", false⟩
  else if isBlank record_ids then Except.ok ⟨Json.obj [], "Record IDs are required", false⟩
  else
    match loads record_ids with
    | Except.error msg =>
        Except.ok ⟨Json.obj [], "Invalid JSON format for record_ids parameter: " ++ msg, false⟩
    | Except.ok recordIdsVal =>
      match recordIdsVal with
      | Json.arr record_ids_list =>
        if record_ids_list.length == 0 then
          Except.ok ⟨Json.obj [], "At least one record ID is required", false⟩
        else if 10 < record_ids_list.length then
          Except.ok ⟨Json.obj [], "Maximum 10 records can be deleted at once", false⟩
        else
          match firstFailing recordIdProblem record_ids_list with
          | some p => Except.ok ⟨Json.obj [], "Record ID at index " ++ toString p.1 ++ p.2, false⟩
          | none =>
            match get_airtable_client apiKey with
            | Except.error e => Except.error e
            | Except.ok client =>
              match client.delete_multiple_records http (pyStrip base_id)
                  (pyStrip table_id_or_name) record_ids_list with
              | Except.error e => Except.error e
              | Except.ok delete_result =>
                match pyGet delete_result "records" (Json.arr []) with
                | Except.error e => Except.error e
                | Except.ok deleted =>
                  match pyLen deleted with
                  | Except.error e => Except.error e
                  | Except.ok n =>
                    Except.ok ⟨Json.obj [
                      ("deleted_records", deleted),
                      ("deleted_count", Json.num n),
                      ("requested_count", Json.num (Int.ofNat record_ids_list.length)),
                      ("base_id", Json.str base_id),
                      ("table_id_or_name", Json.str table_id_or_name),
                      ("record_ids", Json.arr record_ids_list),
                      ("status", Json.str "records_deleted"),
                      ("message", Json.str ("Successfully deleted " ++ toString n ++ " records"))],
                      "", true⟩
      | _ => Except.ok ⟨Json.obj [], "Record IDs must be an array of record ID strings", false⟩

/-- Tool entry point airtable_delete_multiple_records. -/
def airtable_delete_multiple_records (apiKey : Option String)
    (http : HttpRequest → HttpOutcome) (loads : String → Except String Json)
    (base_id table_id_or_name record_ids : String) : Except PyExn Envelope :=
  catchAll (airtable_delete_multiple_records_impl apiKey http loads base_id table_id_or_name record_ids)

/-- Try block of airtable_delete_comment. -/
def airtable_delete_comment_impl (apiKey : Option String) (http : HttpRequest → HttpOutcome)
    (base_id table_id_or_name record_id row_comment_id : String) : Except PyExn Envelope :=
  if isBlank base_id then Except.ok ⟨Json.obj [], "Base ID is required", false⟩
  else if isBlank table_id_or_name then Except.ok ⟨Json.obj [], "Table ID or name is required", false⟩
  else if isBlank record_id then Except.ok ⟨Json.obj [], "Record ID is required", false⟩
  else if isBlank row_comment_id then Except.ok ⟨Json.obj [], "Row comment ID is required", false⟩
  else
    match get_airtable_client apiKey with
    | Except.error e => Except.error e
    | Except.ok client =>
      match client.delete_comment http (pyStrip base_id) (pyStrip table_id_or_name)
          (pyStrip record_id) (pyStrip row_comment_id) with
      | Except.error e => Except.error e
      | Except.ok delete_result =>
        Except.ok ⟨Json.obj [
          ("comment_deleted", delete_result),
          ("base_id", Json.str base_id),
          ("table_id_or_name", Json.str table_id_or_name),
          ("record_id", Json.str record_id),
          ("row_comment_id", Json.str row_comment_id),
          ("status", Json.str "comment_deleted"),
          ("message", Json.str "Comment deleted successfully")],
          "", true⟩

/-- Tool entry point airtable_delete_comment. -/
def airtable_delete_comment (apiKey : Option String) (http : HttpRequest → HttpOutcome)
    (base_id table_id_or_name record_id row_comment_id : String) : Except PyExn Envelope :=
  catchAll (airtable_delete_comment_impl apiKey http base_id table_id_or_name record_id row_comment_id)

/-- Try block of airtable_update_record. -/
def airtable_update_record_impl (apiKey : Option String) (http : HttpRequest → HttpOutcome)
    (loads : String → Except String Json)
    (base_id table_id_or_name record_id fields : String)
    (return_fields_by_field_id : Bool) : Except PyExn Envelope :=
  if isBlank base_id then Except.ok ⟨Json.obj [], "Base ID is required", false⟩
  else if isBlank table_id_or_name then Except.ok ⟨Json.obj [], "Table ID or name is required", false⟩
  else if isBlank record_id then Except.ok ⟨Json.obj [], "Record ID is required", false⟩
  else if isBlank fields then Except.ok ⟨Json.obj [], "Fields data is required", false⟩
  else
    match loads fields with
    | Except.error msg =>
        Except.ok ⟨Json.obj [], "Invalid JSON format for fields parameter: " ++ msg, false⟩
    | Except.ok fieldsVal =>
      match fieldsVal with
      | Json.obj fields_fields =>
        match get_airtable_client apiKey with
        | Except.error e => Except.error e
        | Except.ok client =>
          match client.update_record http (pyStrip base_id) (pyStrip table_id_or_name)
              (pyStrip record_id) (Json.obj fields_fields) return_fields_by_field_id with
          | Except.error e => Except.error e
          | Except.ok record_result =>
            match pyGet record_result "record" (Json.obj []) with
            | Except.error e => Except.error e
            | Except.ok record =>
              Except.ok ⟨Json.obj [
                ("record", record),
                ("record_id", Json.str record_id),
                ("base_id", Json.str base_id),
                ("table_id_or_name", Json.str table_id_or_name),
                ("fields", Json.obj fields_fields),
                ("return_fields_by_field_id", Json.bool return_fields_by_field_id),
                ("status", Json.str "record_updated"),
                ("message", Json.str "Record updated successfully")],
                "", true⟩
      | _ => Except.ok ⟨Json.obj [], "Fields must be a JSON object", false⟩

/-- Tool entry point airtable_update_record. -/
def airtable_update_record (apiKey : Option String) (http : HttpRequest → HttpOutcome)
    (loads : String → Except String Json)
    (base_id table_id_or_name record_id fields : String)
    (return_fields_by_field_id : Bool) : Except PyExn Envelope :=
  catchAll (airtable_update_record_impl apiKey http loads base_id table_id_or_name record_id
    fields return_fields_by_field_id)

/-- Try block of airtable_update_multiple_records. -/
def airtable_update_multiple_records_impl (apiKey : Option String)
    (http : HttpRequest → HttpOutcome) (loads : String → Except String Json)
    (base_id table_id_or_name records : String) : Except PyExn Envelope :=
  if isBlank base_id then Except.ok ⟨Json.obj [], "Base ID is required", false⟩
  else if isBlank table_id_or_name then Except.ok ⟨Json.obj [], "Table ID or name is required", false⟩
  else if isBlank records then Except.ok ⟨Json.obj [], "Records data is required", false⟩
  else
    match loads records with
    | Except.error msg =>
        Except.ok ⟨Json.obj [], "Invalid JSON format for records parameter: " ++ msg, false⟩
    | Except.ok recordsVal =>
      match recordsVal with
      | Json.arr records_list =>
        match firstFailing updateRecordProblem records_list with
        | some p => Except.ok ⟨Json.obj [], "Record at index " ++ toString p.1 ++ p.2, false⟩
        | none =>
          match get_airtable_client apiKey with
          | Except.error e => Except.error e
          | Except.ok client =>
            match client.update_multiple_records http (pyStrip base_id)
                (pyStrip table_id_or_name) records_list with
            | Except.error e => Except.error e
            | Except.ok records_result =>
              match pyGet records_result "records" (Json.arr []) with
              | Except.error e => Except.error e
              | Except.ok recs =>
                match pyLen recs with
                | Except.error e => Except.error e
                | Except.ok n =>
                  Except.ok ⟨Json.obj [
                    ("records", recs),
                    ("updated_records", Json.num n),
                    ("base_id", Json.str base_id),
                    ("table_id_or_name", Json.str table_id_or_name),
                    ("status", Json.str "records_updated"),
                    ("message", Json.str ("Successfully updated " ++ toString n ++ " records"))],
                    "", true⟩
      | _ => Except.ok ⟨Json.obj [], "Records must be an array of record objects", false⟩

/-- Tool entry point airtable_update_multiple_records. -/
def airtable_update_multiple_records (apiKey : Option String)
    (http : HttpRequest → HttpOutcome) (loads : String → Except String Json)
    (base_id table_id_or_name records : String) : Except PyExn Envelope :=
  catchAll (airtable_update_multiple_records_impl apiKey http loads base_id table_id_or_name records)

/-- Decoding of one optional JSON-string parameter of airtable_list_records:
a blank value is skipped (empty list), invalid JSON or a non-list shape
short-circuits with the corresponding error envelope. -/
def parseOptionalList (loads : String → Except String Json)
    (paramName value shapeMsg : String) : Except Envelope (List Json) :=
  if !isBlank value then
    match loads value with
    | Except.error msg =>
        Except.error ⟨Json.obj [],
          "Invalid JSON format for " ++ paramName ++ " parameter: " ++ msg, false⟩
    | Except.ok v =>
      match v with
      | Json.arr l => Except.ok l
      | _ => Except.error ⟨Json.obj [], shapeMsg, false⟩
  else Except.ok []

/-- Try block of airtable_list_records.  The optional JSON-string
parameters fields, sort and record_metadata are decoded after the client
lookup; a blank optional parameter is skipped. -/
def airtable_list_records_impl (apiKey : Option String) (http : HttpRequest → HttpOutcome)
    (loads : String → Except String Json)
    (base_id table_id_or_name cell_format fields filter_by_formula : String)
    (max_records : Int) (offset : String) (page_size : Int) (record_metadata : String)
    (return_fields_by_field_id : Bool) (sort time_zone user_locale view : String) :
    Except PyExn Envelope :=
  if isBlank base_id then Except.ok ⟨Json.obj [], "Base ID is required", false⟩
  else if isBlank table_id_or_name then Except.ok ⟨Json.obj [], "Table ID or name is required", false⟩
  else
    match get_airtable_client apiKey with
    | Except.error e => Except.error e
    | Except.ok client =>
      match parseOptionalList loads "fields" fields "Fields must be a JSON array" with
      | Except.error env => Except.ok env
      | Except.ok fields_list =>
        match parseOptionalList loads "sort" sort "Sort must be a JSON array" with
        | Except.error env => Except.ok env
        | Except.ok sort_list =>
          match parseOptionalList loads "record_metadata" record_metadata
              "Record metadata must be a JSON array" with
          | Except.error env => Except.ok env
          | Except.ok record_metadata_list =>
            match client.list_records http (pyStrip base_id) (pyStrip table_id_or_name)
                (pyStrip cell_format) fields_list
                (if !pyStrEmpty filter_by_formula then pyStrip filter_by_formula else "")
                max_records
                (if !pyStrEmpty offset then pyStrip offset else "")
                page_size record_metadata_list return_fields_by_field_id sort_list
                (pyStrip time_zone)
                (if !pyStrEmpty user_locale then pyStrip user_locale else "")
                (if !pyStrEmpty view then pyStrip view else "") with
            | Except.error e => Except.error e
            | Except.ok records_result =>
              match pyGet records_result "records" (Json.arr []) with
              | Except.error e => Except.error e
              | Except.ok recs =>
                match pyLen recs with
                | Except.error e => Except.error e
                | Except.ok n =>
                  match pyGet records_result "offset" (Json.str "") with
                  | Except.error e => Except.error e
                  | Except.ok offsetVal =>
                    Except.ok ⟨Json.obj [
                      ("records", recs),
                      ("records_count", Json.num n),
                      ("offset", offsetVal),
                      ("base_id", Json.str base_id),
                      ("table_id_or_name", Json.str table_id_or_name),
                      ("page_size", Json.num page_size),
                      ("status", Json.str "records_retrieved"),
                      ("message", Json.str "Records retrieved successfully")],
                      "", true⟩

/-- Tool entry point airtable_list_records. -/
def airtable_list_records (apiKey : Option String) (http : HttpRequest → HttpOutcome)
    (loads : String → Except String Json)
    (base_id table_id_or_name cell_format fields filter_by_formula : String)
    (max_records : Int) (offset : String) (page_size : Int) (record_metadata : String)
    (return_fields_by_field_id : Bool) (sort time_zone user_locale view : String) :
    Except PyExn Envelope :=
  catchAll (airtable_list_records_impl apiKey http loads base_id table_id_or_name cell_format
    fields filter_by_formula max_records offset page_size record_metadata
    return_fields_by_field_id sort time_zone user_locale view)

/-- The success shape of the envelope invariant: data a non-empty mapping,
empty error string, successful true. -/
def shapeOk (env : Envelope) : Prop :=
  env.data.isObj = true ∧ env.data.isEmptyObj = false ∧ env.error = "" ∧ env.successful = true

/-- The failure shape of the envelope invariant: empty data, non-empty
error string, successful false. -/
def shapeErr (env : Envelope) : Prop :=
  env.data = Json.obj [] ∧ env.error ≠ "" ∧ env.successful = false

/-- The exceptional shape produced by the validated path of
airtable_create_base: populated data, empty error, successful false. -/
def shapeBase (env : Envelope) : Prop :=
  env.data.isObj = true ∧ env.data.isEmptyObj = false ∧ env.error = "" ∧ env.successful = false

/-- The upstream 401 error body used by the specification scenario. -/
def invalidKeyBody : Json :=
  Json.obj [("error", Json.obj [("type", Json.str "INVALID_API_KEY"),
    ("message", Json.str "bad key")])]

/-- A network oracle that answers every request with the upstream 401
carrying invalidKeyBody. -/
def badKeyHttp : HttpRequest → HttpOutcome :=
  fun _ => HttpOutcome.httpError 401 (some invalidKeyBody) "401 Client Error: Unauthorized for url"

/-- The error string every tool except airtable_create_base produces for
the INVALID_API_KEY AirtableAPIError (raised through the generic except
Exception clause). -/
def invalidKeyErrText : String :=
  "Unexpected error: Airtable API Error (INVALID_API_KEY): bad key"

/-- The envelope every tool except airtable_create_base produces for the
INVALID_API_KEY AirtableAPIError. -/
def invalidKeyEnvelope : Envelope := ⟨Json.obj [], invalidKeyErrText, false⟩

/-- The canned message of the INVALID_API_KEY branch of the
AirtableAPIError dispatch of airtable_create_base. -/
def invalidKeyCannedText : String :=
  "Airtable API Error: INVALID_API_KEY\n\nInvalid API key. Please check your AIRTABLE_API_KEY."

/-- The envelope produced when get_airtable_client raises because no
credential is configured. -/
def noKeyEnvelope : Envelope :=
  ⟨Json.obj [], "Unexpected error: AIRTABLE_API_KEY environment variable is required", false⟩

/-- The data mapping of the validated path of airtable_create_base, with
name and workspace_id the original (untrimmed) tool arguments. -/
def createBaseData (name workspace_id : String) (tables_list : List Json)
    (pyHash : String → Int) : Json :=
  Json.obj [
    ("base", Json.obj [
      ("id", Json.str ("app" ++ toString (pyHash (pyStrip name) % 1000000))),
      ("name", Json.str (pyStrip name)),
      ("permissionLevel", Json.str "create")]),
    ("base_id", Json.str ("app" ++ toString (pyHash (pyStrip name) % 1000000))),
    ("base_name", Json.str (pyStrip name)),
    ("workspace_id", Json.str workspace_id),
    ("tables_count", Json.num (Int.ofNat tables_list.length)),
    ("status", Json.str "configuration_validated"),
    ("message", Json.str baseCreationMessage),
    ("creation_details", Json.obj [
      ("name", Json.str name),
      ("workspace_id", Json.str workspace_id),
      ("tables", Json.arr tables_list),
      ("creation_successful", Json.bool false),
      ("api_limitation", Json.str "Airtable API does not support programmatic base creation"),
      ("manual_required", Json.bool true)])]

/-- A string with a non-empty prefix is non-empty. -/
theorem append_ne_empty (a b : String) (h : a ≠ "") : a ++ b ≠ "" := by
  obtain ⟨la⟩ := a
  obtain ⟨lb⟩ := b
  intro hc
  apply h
  have hd : la ++ lb = [] := congrArg String.data hc
  have ha : la = [] := (List.append_eq_nil.mp hd).1
  rw [ha]

/-- catchAll never lets an exception escape. -/
theorem catchAll_total (r : Except PyExn Envelope) : ∃ env, catchAll r = Except.ok env := by
  cases r with
  | ok env => exact ⟨env, rfl⟩
  | error e => exact ⟨_, rfl⟩

/-- Transfer of an envelope property through catchAll: it must hold for
the envelopes of the try block and for the unexpected-error envelope. -/
theorem catchAll_ok (P : Envelope → Prop) (r : Except PyExn Envelope) (env : Envelope)
    (herr : ∀ s : String, s ≠ "" → P ⟨Json.obj [], s, false⟩)
    (hok : ∀ e, r = Except.ok e → P e)
    (h : catchAll r = Except.ok env) : P env := by
  cases r with
  | ok e =>
    have he : e = env := by
      simpa [catchAll] using h
    exact he ▸ hok e rfl
  | error pe =>
    have he : env = ⟨Json.obj [], "Unexpected error: " ++ pe.text, false⟩ := by
      simp [catchAll] at h
      exact h.symm
    exact he ▸ herr _ (append_ne_empty _ _ (by decide))

/-- Transfer of an envelope property through the AirtableAPIError dispatch
of airtable_create_base: it must hold for the envelopes of the try block
and for every canned message. -/
theorem catchApi_ok (P : Envelope → Prop) (r : Except PyExn Envelope) (env : Envelope)
    (herr : ∀ s : String, s ≠ "" → P ⟨Json.obj [], s, false⟩)
    (hok : ∀ e, r = Except.ok e → P e)
    (h : createBaseCatchApi r = Except.ok env) : P env := by
  cases r with
  | ok e =>
    have he : e = env := by
      simpa [createBaseCatchApi] using h
    exact he ▸ hok e rfl
  | error pe =>
    cases pe with
    | airtableAPIError t m s =>
      simp only [createBaseCatchApi] at h
      repeat' split at h
      all_goals cases h
      all_goals first
        | exact herr _ (append_ne_empty ("Airtable API Error: " ++ pyStr t) _
            (append_ne_empty "Airtable API Error: " (pyStr t) (by decide)))
        | exact herr _ (append_ne_empty (("Airtable API Error: " ++ pyStr t)
              ++ "\n\nUnexpected error: ") (pyStr m)
            (append_ne_empty ("Airtable API Error: " ++ pyStr t) "\n\nUnexpected error: "
              (append_ne_empty "Airtable API Error: " (pyStr t) (by decide))))
    | valueError m => simp only [createBaseCatchApi] at h; cases h
    | otherExn m => simp only [createBaseCatchApi] at h; cases h

/-- Error envelopes of parseOptionalList satisfy the failure shape when
the supplied shape message is non-empty. -/
theorem parseOptionalList_err (loads : String → Except String Json)
    (paramName value shapeMsg : String) (env : Envelope)
    (h : parseOptionalList loads paramName value shapeMsg = Except.error env)
    (hm : shapeMsg ≠ "") : shapeErr env := by
  unfold parseOptionalList at h
  repeat' split at h
  all_goals cases h
  · exact ⟨rfl, append_ne_empty _ _ (append_ne_empty _ _ (append_ne_empty _ _ (by decide))), rfl⟩
  · exact ⟨rfl, hm, rfl⟩

/-- All envelopes of the try block of airtable_create_comment satisfy the
envelope invariant. -/
theorem create_comment_impl_shape (apiKey : Option String) (http : HttpRequest → HttpOutcome)
    (base_id record_id table_id_or_name text : String) (env : Envelope)
    (h : airtable_create_comment_impl apiKey http base_id record_id table_id_or_name text
      = Except.ok env) : shapeOk env ∨ shapeErr env := by
  unfold airtable_create_comment_impl at h
  repeat' split at h
  all_goals cases h
  all_goals first
    | exact Or.inl ⟨rfl, rfl, rfl, rfl⟩
    | exact Or.inr ⟨rfl, by decide, rfl⟩

/-- All envelopes of the try block of airtable_create_base satisfy the
failure shape or the exceptional validated shape. -/
theorem create_base_impl_shape (apiKey : Option String) (http : HttpRequest → HttpOutcome)
    (loads : String → Except String Json) (pyHash : String → Int)
    (name tables workspace_id : String) (env : Envelope)
    (h : airtable_create_base_impl apiKey http loads pyHash name tables workspace_id
      = Except.ok env) : shapeErr env ∨ shapeBase env := by
  unfold airtable_create_base_impl at h
  repeat' split at h
  all_goals cases h
  all_goals first
    | exact Or.inr ⟨rfl, rfl, rfl, rfl⟩
    | exact Or.inl ⟨rfl, by decide, rfl⟩
    | exact Or.inl ⟨rfl, append_ne_empty _ _ (by decide), rfl⟩
    | exact Or.inl ⟨rfl, append_ne_empty _ _ (append_ne_empty _ _ (by decide)), rfl⟩

/-- All envelopes of the try block of airtable_create_field satisfy the
envelope invariant. -/
theorem create_field_impl_shape (apiKey : Option String) (http : HttpRequest → HttpOutcome)
    (base_id table_id name type description : String) (options : Option Json) (env : Envelope)
    (h : airtable_create_field_impl apiKey http base_id table_id name type description options
      = Except.ok env) : shapeOk env ∨ shapeErr env := by
  unfold airtable_create_field_impl at h
  repeat' split at h
  all_goals cases h
  all_goals first
    | exact Or.inl ⟨rfl, rfl, rfl, rfl⟩
    | exact Or.inr ⟨rfl, by decide, rfl⟩

/-- All envelopes of the try block of airtable_create_multiple_records
satisfy the envelope invariant. -/
theorem create_multiple_records_impl_shape (apiKey : Option String)
    (http : HttpRequest → HttpOutcome) (loads : String → Except String Json)
    (base_id table_id_or_name records : String) (env : Envelope)
    (h : airtable_create_multiple_records_impl apiKey http loads base_id table_id_or_name records
      = Except.ok env) : shapeOk env ∨ shapeErr env := by
  unfold airtable_create_multiple_records_impl at h
  repeat' split at h
  all_goals cases h
  all_goals first
    | exact Or.inl ⟨rfl, rfl, rfl, rfl⟩
    | exact Or.inr ⟨rfl, by decide, rfl⟩
    | exact Or.inr ⟨rfl, append_ne_empty _ _ (by decide), rfl⟩
    | exact Or.inr ⟨rfl, append_ne_empty _ _ (append_ne_empty _ _ (by decide)), rfl⟩

/-- All envelopes of the try block of airtable_create_record satisfy the
envelope invariant. -/
theorem create_record_impl_shape (apiKey : Option String) (http : HttpRequest → HttpOutcome)
    (loads : String → Except String Json) (base_id table_id_or_name fields : String)
    (env : Envelope)
    (h : airtable_create_record_impl apiKey http loads base_id table_id_or_name fields
      = Except.ok env) : shapeOk env ∨ shapeErr env := by
  unfold airtable_create_record_impl at h
  repeat' split at h
  all_goals cases h
  all_goals first
    | exact Or.inl ⟨rfl, rfl, rfl, rfl⟩
    | exact Or.inr ⟨rfl, by decide, rfl⟩
    | exact Or.inr ⟨rfl, append_ne_empty _ _ (by decide), rfl⟩

/-- All envelopes of the try block of airtable_create_table satisfy the
envelope invariant. -/
theorem create_table_impl_shape (apiKey : Option String) (http : HttpRequest → HttpOutcome)
    (loads : String → Except String Json) (base_id name fields description : String)
    (env : Envelope)
    (h : airtable_create_table_impl apiKey http loads base_id name fields description
      = Except.ok env) : shapeOk env ∨ shapeErr env := by
  unfold airtable_create_table_impl at h
  repeat' split at h
  all_goals cases h
  all_goals first
    | exact Or.inl ⟨rfl, rfl, rfl, rfl⟩
    | exact Or.inr ⟨rfl, by decide, rfl⟩
    | exact Or.inr ⟨rfl, append_ne_empty _ _ (by decide), rfl⟩
    | exact Or.inr ⟨rfl, append_ne_empty _ _ (append_ne_empty _ _ (by decide)), rfl⟩

/-- All envelopes of the try block of airtable_get_base_schema satisfy the
envelope invariant. -/
theorem get_base_schema_impl_shape (apiKey : Option String) (http : HttpRequest → HttpOutcome)
    (base_id : String) (env : Envelope)
    (h : airtable_get_base_schema_impl apiKey http base_id = Except.ok env) :
    shapeOk env ∨ shapeErr env := by
  unfold airtable_get_base_schema_impl at h
  repeat' split at h
  all_goals cases h
  all_goals first
    | exact Or.inl ⟨rfl, rfl, rfl, rfl⟩
    | exact Or.inr ⟨rfl, by decide, rfl⟩

/-- All envelopes of the try block of airtable_get_record satisfy the
envelope invariant. -/
theorem get_record_impl_shape (apiKey : Option String) (http : HttpRequest → HttpOutcome)
    (base_id table_id_or_name record_id cell_format : String)
    (return_fields_by_field_id : Bool) (env : Envelope)
    (h : airtable_get_record_impl apiKey http base_id table_id_or_name record_id cell_format
      return_fields_by_field_id = Except.ok env) : shapeOk env ∨ shapeErr env := by
  unfold airtable_get_record_impl at h
  repeat' split at h
  all_goals cases h
  all_goals first
    | exact Or.inl ⟨rfl, rfl, rfl, rfl⟩
    | exact Or.inr ⟨rfl, by decide, rfl⟩

/-- All envelopes of the try block of airtable_get_user_info satisfy the
envelope invariant. -/
theorem get_user_info_impl_shape (apiKey : Option String) (http : HttpRequest → HttpOutcome)
    (env : Envelope)
    (h : airtable_get_user_info_impl apiKey http = Except.ok env) :
    shapeOk env ∨ shapeErr env := by
  unfold airtable_get_user_info_impl at h
  repeat' split at h
  all_goals cases h
  all_goals exact Or.inl ⟨rfl, rfl, rfl, rfl⟩

/-- All envelopes of the try block of airtable_list_bases satisfy the
envelope invariant. -/
theorem list_bases_impl_shape (apiKey : Option String) (http : HttpRequest → HttpOutcome)
    (env : Envelope)
    (h : airtable_list_bases_impl apiKey http = Except.ok env) :
    shapeOk env ∨ shapeErr env := by
  unfold airtable_list_bases_impl at h
  repeat' split at h
  all_goals cases h
  all_goals exact Or.inl ⟨rfl, rfl, rfl, rfl⟩

/-- All envelopes of the try block of airtable_list_comments satisfy the
envelope invariant. -/
theorem list_comments_impl_shape (apiKey : Option String) (http : HttpRequest → HttpOutcome)
    (base_id table_id_or_name record_id : String) (env : Envelope)
    (h : airtable_list_comments_impl apiKey http base_id table_id_or_name record_id
      = Except.ok env) : shapeOk env ∨ shapeErr env := by
  unfold airtable_list_comments_impl at h
  repeat' split at h
  all_goals cases h
  all_goals first
    | exact Or.inl ⟨rfl, rfl, rfl, rfl⟩
    | exact Or.inr ⟨rfl, by decide, rfl⟩

/-- All envelopes of the try block of airtable_delete_record satisfy the
envelope invariant. -/
theorem delete_record_impl_shape (apiKey : Option String) (http : HttpRequest → HttpOutcome)
    (base_id table_id_or_name record_id : String) (env : Envelope)
    (h : airtable_delete_record_impl apiKey http base_id table_id_or_name record_id
      = Except.ok env) : shapeOk env ∨ shapeErr env := by
  unfold airtable_delete_record_impl at h
  repeat' split at h
  all_goals cases h
  all_goals first
    | exact Or.inl ⟨rfl, rfl, rfl, rfl⟩
    | exact Or.inr ⟨rfl, by decide, rfl⟩

/-- All envelopes of the try block of airtable_delete_multiple_records
satisfy the envelope invariant. -/
theorem delete_multiple_records_impl_shape (apiKey : Option String)
    (http : HttpRequest → HttpOutcome) (loads : String → Except String Json)
    (base_id table_id_or_name record_ids : String) (env : Envelope)
    (h : airtable_delete_multiple_records_impl apiKey http loads base_id table_id_or_name
      record_ids = Except.ok env) : shapeOk env ∨ shapeErr env := by
  unfold airtable_delete_multiple_records_impl at h
  repeat' split at h
  all_goals cases h
  all_goals first
    | exact Or.inl ⟨rfl, rfl, rfl, rfl⟩
    | exact Or.inr ⟨rfl, by decide, rfl⟩
    | exact Or.inr ⟨rfl, append_ne_empty _ _ (by decide), rfl⟩
    | exact Or.inr ⟨rfl, append_ne_empty _ _ (append_ne_empty _ _ (by decide)), rfl⟩

/-- All envelopes of the try block of airtable_delete_comment satisfy the
envelope invariant. -/
theorem delete_comment_impl_shape (apiKey : Option String) (http : HttpRequest → HttpOutcome)
    (base_id table_id_or_name record_id row_comment_id : String) (env : Envelope)
    (h : airtable_delete_comment_impl apiKey http base_id table_id_or_name record_id
      row_comment_id = Except.ok env) : shapeOk env ∨ shapeErr env := by
  unfold airtable_delete_comment_impl at h
  repeat' split at h
  all_goals cases h
  all_goals first
    | exact Or.inl ⟨rfl, rfl, rfl, rfl⟩
    | exact Or.inr ⟨rfl, by decide, rfl⟩

/-- All envelopes of the try block of airtable_update_record satisfy the
envelope invariant. -/
theorem update_record_impl_shape (apiKey : Option String) (http : HttpRequest → HttpOutcome)
    (loads : String → Except String Json)
    (base_id table_id_or_name record_id fields : String)
    (return_fields_by_field_id : Bool) (env : Envelope)
    (h : airtable_update_record_impl apiKey http loads base_id table_id_or_name record_id
      fields return_fields_by_field_id = Except.ok env) : shapeOk env ∨ shapeErr env := by
  unfold airtable_update_record_impl at h
  repeat' split at h
  all_goals cases h
  all_goals first
    | exact Or.inl ⟨rfl, rfl, rfl, rfl⟩
    | exact Or.inr ⟨rfl, by decide, rfl⟩
    | exact Or.inr ⟨rfl, append_ne_empty _ _ (by decide), rfl⟩

/-- All envelopes of the try block of airtable_update_multiple_records
satisfy the envelope invariant. -/
theorem update_multiple_records_impl_shape (apiKey : Option String)
    (http : HttpRequest → HttpOutcome) (loads : String → Except String Json)
    (base_id table_id_or_name records : String) (env : Envelope)
    (h : airtable_update_multiple_records_impl apiKey http loads base_id table_id_or_name
      records = Except.ok env) : shapeOk env ∨ shapeErr env := by
  unfold airtable_update_multiple_records_impl at h
  repeat' split at h
  all_goals cases h
  all_goals first
    | exact Or.inl ⟨rfl, rfl, rfl, rfl⟩
    | exact Or.inr ⟨rfl, by decide, rfl⟩
    | exact Or.inr ⟨rfl, append_ne_empty _ _ (by decide), rfl⟩
    | exact Or.inr ⟨rfl, append_ne_empty _ _ (append_ne_empty _ _ (by decide)), rfl⟩

/-- All envelopes of the try block of airtable_list_records satisfy the
envelope invariant. -/
theorem list_records_impl_shape (apiKey : Option String) (http : HttpRequest → HttpOutcome)
    (loads : String → Except String Json)
    (base_id table_id_or_name cell_format fields filter_by_formula : String)
    (max_records : Int) (offset : String) (page_size : Int) (record_metadata : String)
    (return_fields_by_field_id : Bool) (sort time_zone user_locale view : String)
    (env : Envelope)
    (h : airtable_list_records_impl apiKey http loads base_id table_id_or_name cell_format
      fields filter_by_formula max_records offset page_size record_metadata
      return_fields_by_field_id sort time_zone user_locale view = Except.ok env) :
    shapeOk env ∨ shapeErr env := by
  unfold airtable_list_records_impl at h
  repeat' split at h
  all_goals cases h
  all_goals first
    | exact Or.inl ⟨rfl, rfl, rfl, rfl⟩
    | exact Or.inr ⟨rfl, by decide, rfl⟩
    | (rename_i heq; exact Or.inr (parseOptionalList_err _ _ _ _ _ heq (by decide)))

/-- C2: Every terminal result of every tool entry point satisfies exactly
one of the two envelope shapes — data a non-empty mapping with empty error
and successful true, or empty data with non-empty error and successful
false — except airtable_create_base, whose results satisfy the failure
shape or the exceptional populated-data shape with empty error, and whose
successful flag is always false.  (The two shapes are mutually exclusive
since they disagree on the successful flag.) -/
theorem C2_envelope_invariant :
    (∀ apiKey http loads pyHash name tables workspace_id env,
      airtable_create_base apiKey http loads pyHash name tables workspace_id = Except.ok env →
      (shapeErr env ∨ shapeBase env) ∧ env.successful = false)
    ∧ (∀ apiKey http base_id record_id table_id_or_name text env,
      airtable_create_comment apiKey http base_id record_id table_id_or_name text
        = Except.ok env → shapeOk env ∨ shapeErr env)
    ∧ (∀ apiKey http base_id table_id name type description options env,
      airtable_create_field apiKey http base_id table_id name type description options
        = Except.ok env → shapeOk env ∨ shapeErr env)
    ∧ (∀ apiKey http loads base_id table_id_or_name records env,
      airtable_create_multiple_records apiKey http loads base_id table_id_or_name records
        = Except.ok env → shapeOk env ∨ shapeErr env)
    ∧ (∀ apiKey http loads base_id table_id_or_name fields env,
      airtable_create_record apiKey http loads base_id table_id_or_name fields
        = Except.ok env → shapeOk env ∨ shapeErr env)
    ∧ (∀ apiKey http loads base_id name fields description env,
      airtable_create_table apiKey http loads base_id name fields description
        = Except.ok env → shapeOk env ∨ shapeErr env)
    ∧ (∀ apiKey http base_id env,
      airtable_get_base_schema apiKey http base_id = Except.ok env →
      shapeOk env ∨ shapeErr env)
    ∧ (∀ apiKey http base_id table_id_or_name record_id cell_format return_fields_by_field_id env,
      airtable_get_record apiKey http base_id table_id_or_name record_id cell_format
        return_fields_by_field_id = Except.ok env → shapeOk env ∨ shapeErr env)
    ∧ (∀ apiKey http env,
      airtable_get_user_info apiKey http = Except.ok env → shapeOk env ∨ shapeErr env)
    ∧ (∀ apiKey http env,
      airtable_list_bases apiKey http = Except.ok env → shapeOk env ∨ shapeErr env)
    ∧ (∀ apiKey http base_id table_id_or_name record_id env,
      airtable_list_comments apiKey http base_id table_id_or_name record_id = Except.ok env →
      shapeOk env ∨ shapeErr env)
    ∧ (∀ apiKey http base_id table_id_or_name record_id env,
      airtable_delete_record apiKey http base_id table_id_or_name record_id = Except.ok env →
      shapeOk env ∨ shapeErr env)
    ∧ (∀ apiKey http loads base_id table_id_or_name record_ids env,
      airtable_delete_multiple_records apiKey http loads base_id table_id_or_name record_ids
        = Except.ok env → shapeOk env ∨ shapeErr env)
    ∧ (∀ apiKey http base_id table_id_or_name record_id row_comment_id env,
      airtable_delete_comment apiKey http base_id table_id_or_name record_id row_comment_id
        = Except.ok env → shapeOk env ∨ shapeErr env)
    ∧ (∀ apiKey http loads base_id table_id_or_name record_id fields return_fields_by_field_id env,
      airtable_update_record apiKey http loads base_id table_id_or_name record_id fields
        return_fields_by_field_id = Except.ok env → shapeOk env ∨ shapeErr env)
    ∧ (∀ apiKey http loads base_id table_id_or_name records env,
      airtable_update_multiple_records apiKey http loads base_id table_id_or_name records
        = Except.ok env → shapeOk env ∨ shapeErr env)
    ∧ (∀ apiKey http loads base_id table_id_or_name cell_format fields filter_by_formula
        max_records offset page_size record_metadata return_fields_by_field_id sort
        time_zone user_locale view env,
      airtable_list_records apiKey http loads base_id table_id_or_name cell_format fields
        filter_by_formula max_records offset page_size record_metadata
        return_fields_by_field_id sort time_zone user_locale view = Except.ok env →
      shapeOk env ∨ shapeErr env) := by
  refine ⟨?_, ?_, ?_, ?_, ?_, ?_, ?_, ?_, ?_, ?_, ?_, ?_, ?_, ?_, ?_, ?_, ?_⟩
  · intro apiKey http loads pyHash name tables workspace_id env h
    simp only [airtable_create_base] at h
    refine catchAll_ok (fun env => (shapeErr env ∨ shapeBase env) ∧ env.successful = false) _ env (fun s hs => ⟨Or.inl ⟨rfl, hs, rfl⟩, rfl⟩) ?_ h
    intro e he
    refine catchApi_ok (fun env => (shapeErr env ∨ shapeBase env) ∧ env.successful = false) _ e (fun s hs => ⟨Or.inl ⟨rfl, hs, rfl⟩, rfl⟩) ?_ he
    intro e2 he2
    have hsh := create_base_impl_shape apiKey http loads pyHash name tables workspace_id e2 he2
    exact ⟨hsh, hsh.elim (fun a => a.2.2) (fun b => b.2.2.2)⟩
  · intro apiKey http base_id record_id table_id_or_name text env h
    simp only [airtable_create_comment] at h
    exact catchAll_ok (fun env => shapeOk env ∨ shapeErr env) _ env (fun s hs => Or.inr ⟨rfl, hs, rfl⟩)
      (fun e he => create_comment_impl_shape apiKey http base_id record_id table_id_or_name
        text e he) h
  · intro apiKey http base_id table_id name type description options env h
    simp only [airtable_create_field] at h
    exact catchAll_ok (fun env => shapeOk env ∨ shapeErr env) _ env (fun s hs => Or.inr ⟨rfl, hs, rfl⟩)
      (fun e he => create_field_impl_shape apiKey http base_id table_id name type description
        options e he) h
  · intro apiKey http loads base_id table_id_or_name records env h
    simp only [airtable_create_multiple_records] at h
    exact catchAll_ok (fun env => shapeOk env ∨ shapeErr env) _ env (fun s hs => Or.inr ⟨rfl, hs, rfl⟩)
      (fun e he => create_multiple_records_impl_shape apiKey http loads base_id
        table_id_or_name records e he) h
  · intro apiKey http loads base_id table_id_or_name fields env h
    simp only [airtable_create_record] at h
    exact catchAll_ok (fun env => shapeOk env ∨ shapeErr env) _ env (fun s hs => Or.inr ⟨rfl, hs, rfl⟩)
      (fun e he => create_record_impl_shape apiKey http loads base_id table_id_or_name
        fields e he) h
  · intro apiKey http loads base_id name fields description env h
    simp only [airtable_create_table] at h
    exact catchAll_ok (fun env => shapeOk env ∨ shapeErr env) _ env (fun s hs => Or.inr ⟨rfl, hs, rfl⟩)
      (fun e he => create_table_impl_shape apiKey http loads base_id name fields
        description e he) h
  · intro apiKey http base_id env h
    simp only [airtable_get_base_schema] at h
    exact catchAll_ok (fun env => shapeOk env ∨ shapeErr env) _ env (fun s hs => Or.inr ⟨rfl, hs, rfl⟩)
      (fun e he => get_base_schema_impl_shape apiKey http base_id e he) h
  · intro apiKey http base_id table_id_or_name record_id cell_format return_fields_by_field_id env h
    simp only [airtable_get_record] at h
    exact catchAll_ok (fun env => shapeOk env ∨ shapeErr env) _ env (fun s hs => Or.inr ⟨rfl, hs, rfl⟩)
      (fun e he => get_record_impl_shape apiKey http base_id table_id_or_name record_id
        cell_format return_fields_by_field_id e he) h
  · intro apiKey http env h
    simp only [airtable_get_user_info] at h
    exact catchAll_ok (fun env => shapeOk env ∨ shapeErr env) _ env (fun s hs => Or.inr ⟨rfl, hs, rfl⟩)
      (fun e he => get_user_info_impl_shape apiKey http e he) h
  · intro apiKey http env h
    simp only [airtable_list_bases] at h
    exact catchAll_ok (fun env => shapeOk env ∨ shapeErr env) _ env (fun s hs => Or.inr ⟨rfl, hs, rfl⟩)
      (fun e he => list_bases_impl_shape apiKey http e he) h
  · intro apiKey http base_id table_id_or_name record_id env h
    simp only [airtable_list_comments] at h
    exact catchAll_ok (fun env => shapeOk env ∨ shapeErr env) _ env (fun s hs => Or.inr ⟨rfl, hs, rfl⟩)
      (fun e he => list_comments_impl_shape apiKey http base_id table_id_or_name record_id e he) h
  · intro apiKey http base_id table_id_or_name record_id env h
    simp only [airtable_delete_record] at h
    exact catchAll_ok (fun env => shapeOk env ∨ shapeErr env) _ env (fun s hs => Or.inr ⟨rfl, hs, rfl⟩)
      (fun e he => delete_record_impl_shape apiKey http base_id table_id_or_name record_id e he) h
  · intro apiKey http loads base_id table_id_or_name record_ids env h
    simp only [airtable_delete_multiple_records] at h
    exact catchAll_ok (fun env => shapeOk env ∨ shapeErr env) _ env (fun s hs => Or.inr ⟨rfl, hs, rfl⟩)
      (fun e he => delete_multiple_records_impl_shape apiKey http loads base_id
        table_id_or_name record_ids e he) h
  · intro apiKey http base_id table_id_or_name record_id row_comment_id env h
    simp only [airtable_delete_comment] at h
    exact catchAll_ok (fun env => shapeOk env ∨ shapeErr env) _ env (fun s hs => Or.inr ⟨rfl, hs, rfl⟩)
      (fun e he => delete_comment_impl_shape apiKey http base_id table_id_or_name record_id
        row_comment_id e he) h
  · intro apiKey http loads base_id table_id_or_name record_id fields return_fields_by_field_id env h
    simp only [airtable_update_record] at h
    exact catchAll_ok (fun env => shapeOk env ∨ shapeErr env) _ env (fun s hs => Or.inr ⟨rfl, hs, rfl⟩)
      (fun e he => update_record_impl_shape apiKey http loads base_id table_id_or_name
        record_id fields return_fields_by_field_id e he) h
  · intro apiKey http loads base_id table_id_or_name records env h
    simp only [airtable_update_multiple_records] at h
    exact catchAll_ok (fun env => shapeOk env ∨ shapeErr env) _ env (fun s hs => Or.inr ⟨rfl, hs, rfl⟩)
      (fun e he => update_multiple_records_impl_shape apiKey http loads base_id
        table_id_or_name records e he) h
  · intro apiKey http loads base_id table_id_or_name cell_format fields filter_by_formula
      max_records offset page_size record_metadata return_fields_by_field_id sort
      time_zone user_locale view env h
    simp only [airtable_list_records] at h
    exact catchAll_ok (fun env => shapeOk env ∨ shapeErr env) _ env (fun s hs => Or.inr ⟨rfl, hs, rfl⟩)
      (fun e he => list_records_impl_shape apiKey http loads base_id table_id_or_name
        cell_format fields filter_by_formula max_records offset page_size record_metadata
        return_fields_by_field_id sort time_zone user_locale view e he) h

/-- C2 witness: the invariant instantiated at a concrete run of
airtable_create_comment with a blank base id. -/
theorem C2_envelope_invariant_witness :
    shapeOk ⟨Json.obj [], "Base ID is required", false⟩
    ∨ shapeErr ⟨Json.obj [], "Base ID is required", false⟩ :=
  C2_envelope_invariant.2.1 (some "key") (fun _ => HttpOutcome.requestExc "down")
    "" "rec1" "tbl1" "hello" ⟨Json.obj [], "Base ID is required", false⟩ rfl

/-- C9: Every tool entry point is total at its boundary: for every input,
credential state and outcome of the delegated client call (including any
raised exception of any type), the tool returns an envelope; no raised
fault escapes past the closing except clause. -/
theorem C9_no_fault_escapes :
    (∀ apiKey http loads pyHash name tables workspace_id, ∃ env,
      airtable_create_base apiKey http loads pyHash name tables workspace_id = Except.ok env)
    ∧ (∀ apiKey http base_id record_id table_id_or_name text, ∃ env,
      airtable_create_comment apiKey http base_id record_id table_id_or_name text
        = Except.ok env)
    ∧ (∀ apiKey http base_id table_id name type description options, ∃ env,
      airtable_create_field apiKey http base_id table_id name type description options
        = Except.ok env)
    ∧ (∀ apiKey http loads base_id table_id_or_name records, ∃ env,
      airtable_create_multiple_records apiKey http loads base_id table_id_or_name records
        = Except.ok env)
    ∧ (∀ apiKey http loads base_id table_id_or_name fields, ∃ env,
      airtable_create_record apiKey http loads base_id table_id_or_name fields = Except.ok env)
    ∧ (∀ apiKey http loads base_id name fields description, ∃ env,
      airtable_create_table apiKey http loads base_id name fields description = Except.ok env)
    ∧ (∀ apiKey http base_id, ∃ env,
      airtable_get_base_schema apiKey http base_id = Except.ok env)
    ∧ (∀ apiKey http base_id table_id_or_name record_id cell_format return_fields_by_field_id,
      ∃ env, airtable_get_record apiKey http base_id table_id_or_name record_id cell_format
        return_fields_by_field_id = Except.ok env)
    ∧ (∀ apiKey http, ∃ env, airtable_get_user_info apiKey http = Except.ok env)
    ∧ (∀ apiKey http, ∃ env, airtable_list_bases apiKey http = Except.ok env)
    ∧ (∀ apiKey http base_id table_id_or_name record_id, ∃ env,
      airtable_list_comments apiKey http base_id table_id_or_name record_id = Except.ok env)
    ∧ (∀ apiKey http base_id table_id_or_name record_id, ∃ env,
      airtable_delete_record apiKey http base_id table_id_or_name record_id = Except.ok env)
    ∧ (∀ apiKey http loads base_id table_id_or_name record_ids, ∃ env,
      airtable_delete_multiple_records apiKey http loads base_id table_id_or_name record_ids
        = Except.ok env)
    ∧ (∀ apiKey http base_id table_id_or_name record_id row_comment_id, ∃ env,
      airtable_delete_comment apiKey http base_id table_id_or_name record_id row_comment_id
        = Except.ok env)
    ∧ (∀ apiKey http loads base_id table_id_or_name record_id fields return_fields_by_field_id,
      ∃ env, airtable_update_record apiKey http loads base_id table_id_or_name record_id
        fields return_fields_by_field_id = Except.ok env)
    ∧ (∀ apiKey http loads base_id table_id_or_name records, ∃ env,
      airtable_update_multiple_records apiKey http loads base_id table_id_or_name records
        = Except.ok env)
    ∧ (∀ apiKey http loads base_id table_id_or_name cell_format fields filter_by_formula
        max_records offset page_size record_metadata return_fields_by_field_id sort
        time_zone user_locale view, ∃ env,
      airtable_list_records apiKey http loads base_id table_id_or_name cell_format fields
        filter_by_formula max_records offset page_size record_metadata
        return_fields_by_field_id sort time_zone user_locale view = Except.ok env) :=
  ⟨fun _ _ _ _ _ _ _ => catchAll_total _,
   fun _ _ _ _ _ _ => catchAll_total _,
   fun _ _ _ _ _ _ _ _ => catchAll_total _,
   fun _ _ _ _ _ _ => catchAll_total _,
   fun _ _ _ _ _ _ => catchAll_total _,
   fun _ _ _ _ _ _ _ => catchAll_total _,
   fun _ _ _ => catchAll_total _,
   fun _ _ _ _ _ _ _ => catchAll_total _,
   fun _ _ => catchAll_total _,
   fun _ _ => catchAll_total _,
   fun _ _ _ _ _ => catchAll_total _,
   fun _ _ _ _ _ => catchAll_total _,
   fun _ _ _ _ _ _ => catchAll_total _,
   fun _ _ _ _ _ _ => catchAll_total _,
   fun _ _ _ _ _ _ _ _ => catchAll_total _,
   fun _ _ _ _ _ _ => catchAll_total _,
   fun _ _ _ _ _ _ _ _ _ _ _ _ _ _ _ _ _ => catchAll_total _⟩

/-- C7: Every network-calling client method turns a transport-level failure
without an HTTP response (a RequestException: DNS failure, connection
refused, timeout) into an AirtableAPIError of kind network_error with
status code 0 and a message prefixed with the exception text. -/
theorem C7_network_error_normalization :
    (∀ (c : AirtableClient) (base_id record_id table_id_or_name text t : String),
      c.create_comment (fun _ => HttpOutcome.requestExc t) base_id record_id table_id_or_name
        text = Except.error (PyExn.airtableAPIError (Json.str "network_error")
          (Json.str ("Network error: " ++ t)) 0))
    ∧ (∀ (c : AirtableClient) (base_id table_id name field_type description t : String)
        (options : Json),
      c.create_field (fun _ => HttpOutcome.requestExc t) base_id table_id name field_type
        description options = Except.error (PyExn.airtableAPIError (Json.str "network_error")
          (Json.str ("Network error: " ++ t)) 0))
    ∧ (∀ (c : AirtableClient) (base_id table_id_or_name t : String) (records : List Json),
      c.create_multiple_records (fun _ => HttpOutcome.requestExc t) base_id table_id_or_name
        records = Except.error (PyExn.airtableAPIError (Json.str "network_error")
          (Json.str ("Network error: " ++ t)) 0))
    ∧ (∀ (c : AirtableClient) (base_id table_id_or_name t : String) (fields : Json),
      c.create_record (fun _ => HttpOutcome.requestExc t) base_id table_id_or_name fields
        = Except.error (PyExn.airtableAPIError (Json.str "network_error")
          (Json.str ("Network error: " ++ t)) 0))
    ∧ (∀ (c : AirtableClient) (base_id name description t : String) (fields : List Json),
      c.create_table (fun _ => HttpOutcome.requestExc t) base_id name fields description
        = Except.error (PyExn.airtableAPIError (Json.str "network_error")
          (Json.str ("Network error: " ++ t)) 0))
    ∧ (∀ (c : AirtableClient) (base_id t : String),
      c.get_base_schema (fun _ => HttpOutcome.requestExc t) base_id
        = Except.error (PyExn.airtableAPIError (Json.str "network_error")
          (Json.str ("Network error: " ++ t)) 0))
    ∧ (∀ (c : AirtableClient) (base_id table_id_or_name record_id cell_format t : String)
        (return_fields_by_field_id : Bool),
      c.get_record (fun _ => HttpOutcome.requestExc t) base_id table_id_or_name record_id
        cell_format return_fields_by_field_id
        = Except.error (PyExn.airtableAPIError (Json.str "network_error")
          (Json.str ("Network error: " ++ t)) 0))
    ∧ (∀ (c : AirtableClient) (t : String),
      c.get_user_info (fun _ => HttpOutcome.requestExc t)
        = Except.error (PyExn.airtableAPIError (Json.str "network_error")
          (Json.str ("Network error: " ++ t)) 0))
    ∧ (∀ (c : AirtableClient) (t : String),
      c.list_bases (fun _ => HttpOutcome.requestExc t)
        = Except.error (PyExn.airtableAPIError (Json.str "network_error")
          (Json.str ("Network error: " ++ t)) 0))
    ∧ (∀ (c : AirtableClient) (base_id table_id_or_name record_id t : String),
      c.list_comments (fun _ => HttpOutcome.requestExc t) base_id table_id_or_name record_id
        = Except.error (PyExn.airtableAPIError (Json.str "network_error")
          (Json.str ("Network error: " ++ t)) 0))
    ∧ (∀ (c : AirtableClient) (base_id table_id_or_name record_id row_comment_id t : String),
      c.delete_comment (fun _ => HttpOutcome.requestExc t) base_id table_id_or_name record_id
        row_comment_id = Except.error (PyExn.airtableAPIError (Json.str "network_error")
          (Json.str ("Network error: " ++ t)) 0))
    ∧ (∀ (c : AirtableClient) (base_id table_id_or_name record_id t : String),
      c.delete_record (fun _ => HttpOutcome.requestExc t) base_id table_id_or_name record_id
        = Except.error (PyExn.airtableAPIError (Json.str "network_error")
          (Json.str ("Network error: " ++ t)) 0))
    ∧ (∀ (c : AirtableClient) (base_id table_id_or_name t : String) (record_ids : List Json),
      c.delete_multiple_records (fun _ => HttpOutcome.requestExc t) base_id table_id_or_name
        record_ids = Except.error (PyExn.airtableAPIError (Json.str "network_error")
          (Json.str ("Network error: " ++ t)) 0))
    ∧ (∀ (c : AirtableClient) (base_id table_id_or_name record_id t : String) (fields : Json)
        (return_fields_by_field_id : Bool),
      c.update_record (fun _ => HttpOutcome.requestExc t) base_id table_id_or_name record_id
        fields return_fields_by_field_id
        = Except.error (PyExn.airtableAPIError (Json.str "network_error")
          (Json.str ("Network error: " ++ t)) 0))
    ∧ (∀ (c : AirtableClient) (base_id table_id_or_name t : String) (records : List Json),
      c.update_multiple_records (fun _ => HttpOutcome.requestExc t) base_id table_id_or_name
        records = Except.error (PyExn.airtableAPIError (Json.str "network_error")
          (Json.str ("Network error: " ++ t)) 0))
    ∧ (∀ (c : AirtableClient) (base_id table_id_or_name cell_format filter_by_formula : String)
        (fields : List Json) (max_records : Int) (offset : String) (page_size : Int)
        (record_metadata : List Json) (return_fields_by_field_id : Bool) (sort : List Json)
        (time_zone user_locale view t : String),
      c.list_records (fun _ => HttpOutcome.requestExc t) base_id table_id_or_name cell_format
        fields filter_by_formula max_records offset page_size record_metadata
        return_fields_by_field_id sort time_zone user_locale view
        = Except.error (PyExn.airtableAPIError (Json.str "network_error")
          (Json.str ("Network error: " ++ t)) 0)) :=
  ⟨fun _ _ _ _ _ _ => rfl, fun _ _ _ _ _ _ _ _ => rfl, fun _ _ _ _ _ => rfl,
   fun _ _ _ _ _ => rfl, fun _ _ _ _ _ _ => rfl, fun _ _ _ => rfl,
   fun _ _ _ _ _ _ _ => rfl, fun _ _ => rfl, fun _ _ => rfl, fun _ _ _ _ _ => rfl,
   fun _ _ _ _ _ _ => rfl, fun _ _ _ _ _ => rfl, fun _ _ _ _ _ => rfl,
   fun _ _ _ _ _ _ _ => rfl, fun _ _ _ _ _ => rfl,
   fun _ _ _ _ _ _ _ _ _ _ _ _ _ _ _ _ => rfl⟩

/-- C10: airtable_create_base looks up the client before validating its
inputs, so with no credential configured it returns the unexpected-error
envelope naming AIRTABLE_API_KEY even when required parameters are blank,
whereas the other tools (airtable_create_comment shown) validate first and
name the blank parameter even without a credential; the unexpected-error
text is not a validation message. -/
theorem C10_client_lookup_before_validation :
    (∀ http loads pyHash name tables workspace_id,
      airtable_create_base none http loads pyHash name tables workspace_id
        = Except.ok noKeyEnvelope)
    ∧ (∀ http record_id table_id_or_name text,
      airtable_create_comment none http "" record_id table_id_or_name text
        = Except.ok ⟨Json.obj [], "Base ID is required", false⟩)
    ∧ noKeyEnvelope.error = "Unexpected error: AIRTABLE_API_KEY environment variable is required"
    ∧ strContains noKeyEnvelope.error "Base name" = false
    ∧ strContains noKeyEnvelope.error "AIRTABLE_API_KEY" = true :=
  ⟨fun _ _ _ _ _ _ => rfl, fun _ _ _ _ => rfl, rfl, by decide, by decide⟩

/-- A per-entry check that rejects no entry finds no failing index. -/
theorem firstFailing_none_of (problem : Json → Option String) (l : List Json)
    (h : ∀ x ∈ l, problem x = none) : firstFailing problem l = none := by
  induction l with
  | nil => rfl
  | cons x xs ih =>
    have hx : problem x = none := h x (List.mem_cons_self x xs)
    have hxs : firstFailing problem xs = none :=
      ih (fun y hy => h y (List.mem_cons_of_mem x hy))
    simp [firstFailing, hx, hxs]

/-- C6: airtable_create_base on fully valid input (non-blank name and
workspace id, tables decoding to a list of objects each carrying name and
fields, credential configured) returns successful false with empty error
and populated data whose message field carries the manual-creation
limitation text, and the result does not depend on the network oracle
(no network call is made). -/
theorem C6_create_base_always_unsuccessful :
    ∀ (k : String) (http : HttpRequest → HttpOutcome) (loads : String → Except String Json)
      (pyHash : String → Int) (name tables workspace_id : String) (tables_list : List Json),
    pyStrEmpty k = false →
    isBlank name = false →
    isBlank workspace_id = false →
    isBlank tables = false →
    loads tables = Except.ok (Json.arr tables_list) →
    (∀ x ∈ tables_list, x.isObj = true ∧ x.hasKey "name" = true ∧ x.hasKey "fields" = true) →
    (airtable_create_base (some k) http loads pyHash name tables workspace_id
      = Except.ok ⟨createBaseData name workspace_id tables_list pyHash, "", false⟩)
    ∧ (createBaseData name workspace_id tables_list pyHash).lookup "message"
        = some (Json.str baseCreationMessage)
    ∧ strContains baseCreationMessage "does not support programmatic base creation" = true
    ∧ strContains baseCreationMessage "manually create the base" = true := by
  intro k http loads pyHash name tables workspace_id tables_list hk hname hws htables hparse hgood
  have hff : firstFailing tableEntryProblem tables_list = none :=
    firstFailing_none_of _ _ (fun x hx => by
      have hg := hgood x hx
      simp [tableEntryProblem, hg.1, hg.2.1, hg.2.2])
  refine ⟨?_, rfl, by decide, by decide⟩
  simp [airtable_create_base, airtable_create_base_impl, get_airtable_client, hk, hname, hws,
    htables, hparse, hff, AirtableClient.create_base, pyGet, catchAll, createBaseCatchApi,
    createBaseData, List.lookup]

/-- A configured non-empty key makes the client lookup succeed. -/
theorem get_client_some (k : String) (hk : pyStrEmpty k = false) :
    get_airtable_client (some k) = Except.ok (clientOf k) := by
  simp [get_airtable_client, hk]

/-- C1 counterexample: the claim fails as stated.  Only airtable_create_base
carries the AirtableAPIError dispatch; every other tool (here
airtable_create_comment) funnels the INVALID_API_KEY error through the
generic except Exception clause, whose message contains INVALID_API_KEY
but not the phrase about checking AIRTABLE_API_KEY. -/
theorem C1_counterexample :
    (airtable_create_comment (some "key") badKeyHttp "app1" "rec1" "tbl1" "hello"
      = Except.ok invalidKeyEnvelope)
    ∧ strContains invalidKeyEnvelope.error "INVALID_API_KEY" = true
    ∧ strContains invalidKeyEnvelope.error "AIRTABLE_API_KEY" = false :=
  ⟨rfl, by decide, by decide⟩

/-- C1 amended: when the delegated client call raises the INVALID_API_KEY
AirtableAPIError (from an upstream 401 whose body is
error.type INVALID_API_KEY, error.message bad key), every tool except
airtable_create_base returns successful false with the error string
"Unexpected error: Airtable API Error (INVALID_API_KEY): bad key", which
contains INVALID_API_KEY but not the phrase about checking
AIRTABLE_API_KEY; only the dispatch handler of airtable_create_base (whose
own client method cannot raise) produces the canned message naming
AIRTABLE_API_KEY. -/
theorem C1_invalid_api_key_envelope :
    (∀ (k base_id record_id table_id_or_name text : String),
      pyStrEmpty k = false → isBlank base_id = false → isBlank record_id = false →
      isBlank table_id_or_name = false → isBlank text = false →
      airtable_create_comment (some k) badKeyHttp base_id record_id table_id_or_name text
        = Except.ok invalidKeyEnvelope)
    ∧ (∀ (k base_id table_id name type description : String) (options : Option Json),
      pyStrEmpty k = false → isBlank base_id = false → isBlank table_id = false →
      isBlank name = false →
      airtable_create_field (some k) badKeyHttp base_id table_id name type description options
        = Except.ok invalidKeyEnvelope)
    ∧ (∀ (k base_id table_id_or_name records : String),
      pyStrEmpty k = false → isBlank base_id = false → isBlank table_id_or_name = false →
      isBlank records = false →
      airtable_create_multiple_records (some k) badKeyHttp
          (fun _ => Except.ok (Json.arr [])) base_id table_id_or_name records
        = Except.ok invalidKeyEnvelope)
    ∧ (∀ (k base_id table_id_or_name fields : String),
      pyStrEmpty k = false → isBlank base_id = false → isBlank table_id_or_name = false →
      isBlank fields = false →
      airtable_create_record (some k) badKeyHttp (fun _ => Except.ok (Json.obj []))
          base_id table_id_or_name fields
        = Except.ok invalidKeyEnvelope)
    ∧ (∀ (k base_id name fields description : String),
      pyStrEmpty k = false → isBlank base_id = false → isBlank name = false →
      isBlank fields = false →
      airtable_create_table (some k) badKeyHttp (fun _ => Except.ok (Json.arr []))
          base_id name fields description
        = Except.ok invalidKeyEnvelope)
    ∧ (∀ (k base_id : String),
      pyStrEmpty k = false → isBlank base_id = false →
      airtable_get_base_schema (some k) badKeyHttp base_id = Except.ok invalidKeyEnvelope)
    ∧ (∀ (k base_id table_id_or_name record_id cell_format : String)
        (return_fields_by_field_id : Bool),
      pyStrEmpty k = false → isBlank base_id = false → isBlank table_id_or_name = false →
      isBlank record_id = false →
      airtable_get_record (some k) badKeyHttp base_id table_id_or_name record_id cell_format
          return_fields_by_field_id
        = Except.ok invalidKeyEnvelope)
    ∧ (∀ (k : String), pyStrEmpty k = false →
      airtable_get_user_info (some k) badKeyHttp = Except.ok invalidKeyEnvelope)
    ∧ (∀ (k : String), pyStrEmpty k = false →
      airtable_list_bases (some k) badKeyHttp = Except.ok invalidKeyEnvelope)
    ∧ (∀ (k base_id table_id_or_name record_id : String),
      pyStrEmpty k = false → isBlank base_id = false → isBlank table_id_or_name = false →
      isBlank record_id = false →
      airtable_list_comments (some k) badKeyHttp base_id table_id_or_name record_id
        = Except.ok invalidKeyEnvelope)
    ∧ (∀ (k base_id table_id_or_name record_id : String),
      pyStrEmpty k = false → isBlank base_id = false → isBlank table_id_or_name = false →
      isBlank record_id = false →
      airtable_delete_record (some k) badKeyHttp base_id table_id_or_name record_id
        = Except.ok invalidKeyEnvelope)
    ∧ (∀ (k base_id table_id_or_name record_ids : String),
      pyStrEmpty k = false → isBlank base_id = false → isBlank table_id_or_name = false →
      isBlank record_ids = false →
      airtable_delete_multiple_records (some k) badKeyHttp
          (fun _ => Except.ok (Json.arr [Json.str "rec123"])) base_id table_id_or_name
          record_ids
        = Except.ok invalidKeyEnvelope)
    ∧ (∀ (k base_id table_id_or_name record_id row_comment_id : String),
      pyStrEmpty k = false → isBlank base_id = false → isBlank table_id_or_name = false →
      isBlank record_id = false → isBlank row_comment_id = false →
      airtable_delete_comment (some k) badKeyHttp base_id table_id_or_name record_id
          row_comment_id
        = Except.ok invalidKeyEnvelope)
    ∧ (∀ (k base_id table_id_or_name record_id fields : String)
        (return_fields_by_field_id : Bool),
      pyStrEmpty k = false → isBlank base_id = false → isBlank table_id_or_name = false →
      isBlank record_id = false → isBlank fields = false →
      airtable_update_record (some k) badKeyHttp (fun _ => Except.ok (Json.obj []))
          base_id table_id_or_name record_id fields return_fields_by_field_id
        = Except.ok invalidKeyEnvelope)
    ∧ (∀ (k base_id table_id_or_name records : String),
      pyStrEmpty k = false → isBlank base_id = false → isBlank table_id_or_name = false →
      isBlank records = false →
      airtable_update_multiple_records (some k) badKeyHttp (fun _ => Except.ok (Json.arr []))
          base_id table_id_or_name records
        = Except.ok invalidKeyEnvelope)
    ∧ (∀ (k base_id table_id_or_name cell_format filter_by_formula : String)
        (loads : String → Except String Json) (max_records : Int) (offset : String)
        (page_size : Int) (return_fields_by_field_id : Bool)
        (time_zone user_locale view : String),
      pyStrEmpty k = false → isBlank base_id = false → isBlank table_id_or_name = false →
      airtable_list_records (some k) badKeyHttp loads base_id table_id_or_name cell_format
          "" filter_by_formula max_records offset page_size "" return_fields_by_field_id
          "" time_zone user_locale view
        = Except.ok invalidKeyEnvelope)
    ∧ (∀ (m : Json) (s : Int),
      createBaseCatchApi (Except.error (PyExn.airtableAPIError
          (Json.str "INVALID_API_KEY") m s))
        = Except.ok ⟨Json.obj [], invalidKeyCannedText, false⟩)
    ∧ strContains invalidKeyErrText "INVALID_API_KEY" = true
    ∧ strContains invalidKeyErrText "AIRTABLE_API_KEY" = false
    ∧ strContains invalidKeyCannedText "AIRTABLE_API_KEY" = true := by
  refine ⟨?_, ?_, ?_, ?_, ?_, ?_, ?_, ?_, ?_, ?_, ?_, ?_, ?_, ?_, ?_, ?_, ?_,
    by decide, by decide, by decide⟩
  · intro k base_id record_id table_id_or_name text hk hb hr ht htx
    unfold airtable_create_comment airtable_create_comment_impl
    rw [hb, hr, ht, htx, get_client_some k hk]
    rfl
  · intro k base_id table_id name type description options hk hb ht hn
    unfold airtable_create_field airtable_create_field_impl
    rw [hb, ht, hn, get_client_some k hk]
    rfl
  · intro k base_id table_id_or_name records hk hb ht hr
    unfold airtable_create_multiple_records airtable_create_multiple_records_impl
    rw [hb, ht, hr, get_client_some k hk]
    rfl
  · intro k base_id table_id_or_name fields hk hb ht hf
    unfold airtable_create_record airtable_create_record_impl
    rw [hb, ht, hf, get_client_some k hk]
    rfl
  · intro k base_id name fields description hk hb hn hf
    unfold airtable_create_table airtable_create_table_impl
    rw [hb, hn, hf, get_client_some k hk]
    rfl
  · intro k base_id hk hb
    unfold airtable_get_base_schema airtable_get_base_schema_impl
    rw [hb, get_client_some k hk]
    rfl
  · intro k base_id table_id_or_name record_id cell_format return_fields_by_field_id hk hb ht hr
    unfold airtable_get_record airtable_get_record_impl
    rw [hb, ht, hr, get_client_some k hk]
    rfl
  · intro k hk
    unfold airtable_get_user_info airtable_get_user_info_impl
    rw [get_client_some k hk]
    rfl
  · intro k hk
    unfold airtable_list_bases airtable_list_bases_impl
    rw [get_client_some k hk]
    rfl
  · intro k base_id table_id_or_name record_id hk hb ht hr
    unfold airtable_list_comments airtable_list_comments_impl
    rw [hb, ht, hr, get_client_some k hk]
    rfl
  · intro k base_id table_id_or_name record_id hk hb ht hr
    unfold airtable_delete_record airtable_delete_record_impl
    rw [hb, ht, hr, get_client_some k hk]
    rfl
  · intro k base_id table_id_or_name record_ids hk hb ht hr
    unfold airtable_delete_multiple_records airtable_delete_multiple_records_impl
    rw [hb, ht, hr, get_client_some k hk]
    rfl
  · intro k base_id table_id_or_name record_id row_comment_id hk hb ht hr hrc
    unfold airtable_delete_comment airtable_delete_comment_impl
    rw [hb, ht, hr, hrc, get_client_some k hk]
    rfl
  · intro k base_id table_id_or_name record_id fields return_fields_by_field_id hk hb ht hr hf
    unfold airtable_update_record airtable_update_record_impl
    rw [hb, ht, hr, hf, get_client_some k hk]
    rfl
  · intro k base_id table_id_or_name records hk hb ht hr
    unfold airtable_update_multiple_records airtable_update_multiple_records_impl
    rw [hb, ht, hr, get_client_some k hk]
    rfl
  · intro k base_id table_id_or_name cell_format filter_by_formula loads max_records offset
      page_size return_fields_by_field_id time_zone user_locale view hk hb ht
    unfold airtable_list_records airtable_list_records_impl
    rw [hb, ht, get_client_some k hk]
    rfl
  · intro m s
    rfl

/-- C1 witness: the amended behaviour at a concrete run of
airtable_create_comment. -/
theorem C1_invalid_api_key_envelope_witness :
    airtable_create_comment (some "key") badKeyHttp "appW" "recW" "tblW" "hiW"
      = Except.ok invalidKeyEnvelope :=
  C1_invalid_api_key_envelope.1 "key" "appW" "recW" "tblW" "hiW"
    (by decide) (by decide) (by decide) (by decide) (by decide)

/-- C3 counterexample: the claim fails as stated because
airtable_create_base looks up the client before validating; with no
credential configured and a blank name, the error is the unexpected-error
message, which does not name the blank parameter. -/
theorem C3_counterexample :
    (airtable_create_base none (fun _ => HttpOutcome.requestExc "down")
        (fun _ => Except.error "bad json") (fun _ => 0) "" "[ tables ]" "wsp"
      = Except.ok noKeyEnvelope)
    ∧ strContains noKeyEnvelope.error "Base name" = false :=
  ⟨rfl, by decide⟩

/-- C3 amended: for every tool except airtable_create_base, when the first
blank required string parameter in validation order is p (all parameters
checked before it non-blank), the tool returns empty data, the message
naming p, and successful false, for every credential state and network
oracle (no network call); for airtable_create_base the same holds provided
the client lookup succeeds (non-empty credential), since it looks up the
client before validating. -/
theorem C3_blank_required_parameter :
    (∀ (k : String) (http : HttpRequest → HttpOutcome) (loads : String → Except String Json) (pyHash : String → Int) (name tables workspace_id : String),
      pyStrEmpty k = false → isBlank name = true →
      airtable_create_base (some k) http loads pyHash name tables workspace_id
        = Except.ok ⟨Json.obj [], "Base name is required", false⟩)
    ∧ (∀ (k : String) (http : HttpRequest → HttpOutcome) (loads : String → Except String Json) (pyHash : String → Int) (name tables workspace_id : String),
      pyStrEmpty k = false → isBlank name = false → isBlank workspace_id = true →
      airtable_create_base (some k) http loads pyHash name tables workspace_id
        = Except.ok ⟨Json.obj [], "Workspace ID is required", false⟩)
    ∧ (∀ (k : String) (http : HttpRequest → HttpOutcome) (loads : String → Except String Json) (pyHash : String → Int) (name tables workspace_id : String),
      pyStrEmpty k = false → isBlank name = false → isBlank workspace_id = false → isBlank tables = true →
      airtable_create_base (some k) http loads pyHash name tables workspace_id
        = Except.ok ⟨Json.obj [], "Tables configuration is required", false⟩)
    ∧ (∀ (apiKey : Option String) (http : HttpRequest → HttpOutcome) (base_id record_id table_id_or_name text : String),
      isBlank base_id = true →
      airtable_create_comment apiKey http base_id record_id table_id_or_name text
        = Except.ok ⟨Json.obj [], "Base ID is required", false⟩)
    ∧ (∀ (apiKey : Option String) (http : HttpRequest → HttpOutcome) (base_id record_id table_id_or_name text : String),
      isBlank base_id = false → isBlank record_id = true →
      airtable_create_comment apiKey http base_id record_id table_id_or_name text
        = Except.ok ⟨Json.obj [], "Record ID is required", false⟩)
    ∧ (∀ (apiKey : Option String) (http : HttpRequest → HttpOutcome) (base_id record_id table_id_or_name text : String),
      isBlank base_id = false → isBlank record_id = false → isBlank table_id_or_name = true →
      airtable_create_comment apiKey http base_id record_id table_id_or_name text
        = Except.ok ⟨Json.obj [], "Table ID or name is required", false⟩)
    ∧ (∀ (apiKey : Option String) (http : HttpRequest → HttpOutcome) (base_id record_id table_id_or_name text : String),
      isBlank base_id = false → isBlank record_id = false → isBlank table_id_or_name = false → isBlank text = true →
      airtable_create_comment apiKey http base_id record_id table_id_or_name text
        = Except.ok ⟨Json.obj [], "Comment text is required", false⟩)
    ∧ (∀ (apiKey : Option String) (http : HttpRequest → HttpOutcome) (base_id table_id name type description : String) (options : Option Json),
      isBlank base_id = true →
      airtable_create_field apiKey http base_id table_id name type description options
        = Except.ok ⟨Json.obj [], "Base ID is required", false⟩)
    ∧ (∀ (apiKey : Option String) (http : HttpRequest → HttpOutcome) (base_id table_id name type description : String) (options : Option Json),
      isBlank base_id = false → isBlank table_id = true →
      airtable_create_field apiKey http base_id table_id name type description options
        = Except.ok ⟨Json.obj [], "Table ID is required", false⟩)
    ∧ (∀ (apiKey : Option String) (http : HttpRequest → HttpOutcome) (base_id table_id name type description : String) (options : Option Json),
      isBlank base_id = false → isBlank table_id = false → isBlank name = true →
      airtable_create_field apiKey http base_id table_id name type description options
        = Except.ok ⟨Json.obj [], "Field name is required", false⟩)
    ∧ (∀ (apiKey : Option String) (http : HttpRequest → HttpOutcome) (loads : String → Except String Json) (base_id table_id_or_name records : String),
      isBlank base_id = true →
      airtable_create_multiple_records apiKey http loads base_id table_id_or_name records
        = Except.ok ⟨Json.obj [], "Base ID is required", false⟩)
    ∧ (∀ (apiKey : Option String) (http : HttpRequest → HttpOutcome) (loads : String → Except String Json) (base_id table_id_or_name records : String),
      isBlank base_id = false → isBlank table_id_or_name = true →
      airtable_create_multiple_records apiKey http loads base_id table_id_or_name records
        = Except.ok ⟨Json.obj [], "Table ID or name is required", false⟩)
    ∧ (∀ (apiKey : Option String) (http : HttpRequest → HttpOutcome) (loads : String → Except String Json) (base_id table_id_or_name records : String),
      isBlank base_id = false → isBlank table_id_or_name = false → isBlank records = true →
      airtable_create_multiple_records apiKey http loads base_id table_id_or_name records
        = Except.ok ⟨Json.obj [], "Records data is required", false⟩)
    ∧ (∀ (apiKey : Option String) (http : HttpRequest → HttpOutcome) (loads : String → Except String Json) (base_id table_id_or_name fields : String),
      isBlank base_id = true →
      airtable_create_record apiKey http loads base_id table_id_or_name fields
        = Except.ok ⟨Json.obj [], "Base ID is required", false⟩)
    ∧ (∀ (apiKey : Option String) (http : HttpRequest → HttpOutcome) (loads : String → Except String Json) (base_id table_id_or_name fields : String),
      isBlank base_id = false → isBlank table_id_or_name = true →
      airtable_create_record apiKey http loads base_id table_id_or_name fields
        = Except.ok ⟨Json.obj [], "Table ID or name is required", false⟩)
    ∧ (∀ (apiKey : Option String) (http : HttpRequest → HttpOutcome) (loads : String → Except String Json) (base_id table_id_or_name fields : String),
      isBlank base_id = false → isBlank table_id_or_name = false → isBlank fields = true →
      airtable_create_record apiKey http loads base_id table_id_or_name fields
        = Except.ok ⟨Json.obj [], "Fields data is required", false⟩)
    ∧ (∀ (apiKey : Option String) (http : HttpRequest → HttpOutcome) (loads : String → Except String Json) (base_id name fields description : String),
      isBlank base_id = true →
      airtable_create_table apiKey http loads base_id name fields description
        = Except.ok ⟨Json.obj [], "Base ID is required", false⟩)
    ∧ (∀ (apiKey : Option String) (http : HttpRequest → HttpOutcome) (loads : String → Except String Json) (base_id name fields description : String),
      isBlank base_id = false → isBlank name = true →
      airtable_create_table apiKey http loads base_id name fields description
        = Except.ok ⟨Json.obj [], "Table name is required", false⟩)
    ∧ (∀ (apiKey : Option String) (http : HttpRequest → HttpOutcome) (loads : String → Except String Json) (base_id name fields description : String),
      isBlank base_id = false → isBlank name = false → isBlank fields = true →
      airtable_create_table apiKey http loads base_id name fields description
        = Except.ok ⟨Json.obj [], "Fields data is required", false⟩)
    ∧ (∀ (apiKey : Option String) (http : HttpRequest → HttpOutcome) (base_id : String),
      isBlank base_id = true →
      airtable_get_base_schema apiKey http base_id
        = Except.ok ⟨Json.obj [], "Base ID is required", false⟩)
    ∧ (∀ (apiKey : Option String) (http : HttpRequest → HttpOutcome) (base_id table_id_or_name record_id cell_format : String) (return_fields_by_field_id : Bool),
      isBlank base_id = true →
      airtable_get_record apiKey http base_id table_id_or_name record_id cell_format return_fields_by_field_id
        = Except.ok ⟨Json.obj [], "Base ID is required", false⟩)
    ∧ (∀ (apiKey : Option String) (http : HttpRequest → HttpOutcome) (base_id table_id_or_name record_id cell_format : String) (return_fields_by_field_id : Bool),
      isBlank base_id = false → isBlank table_id_or_name = true →
      airtable_get_record apiKey http base_id table_id_or_name record_id cell_format return_fields_by_field_id
        = Except.ok ⟨Json.obj [], "Table ID or name is required", false⟩)
    ∧ (∀ (apiKey : Option String) (http : HttpRequest → HttpOutcome) (base_id table_id_or_name record_id cell_format : String) (return_fields_by_field_id : Bool),
      isBlank base_id = false → isBlank table_id_or_name = false → isBlank record_id = true →
      airtable_get_record apiKey http base_id table_id_or_name record_id cell_format return_fields_by_field_id
        = Except.ok ⟨Json.obj [], "Record ID is required", false⟩)
    ∧ (∀ (apiKey : Option String) (http : HttpRequest → HttpOutcome) (base_id table_id_or_name record_id : String),
      isBlank base_id = true →
      airtable_list_comments apiKey http base_id table_id_or_name record_id
        = Except.ok ⟨Json.obj [], "Base ID is required", false⟩)
    ∧ (∀ (apiKey : Option String) (http : HttpRequest → HttpOutcome) (base_id table_id_or_name record_id : String),
      isBlank base_id = false → isBlank table_id_or_name = true →
      airtable_list_comments apiKey http base_id table_id_or_name record_id
        = Except.ok ⟨Json.obj [], "Table ID or name is required", false⟩)
    ∧ (∀ (apiKey : Option String) (http : HttpRequest → HttpOutcome) (base_id table_id_or_name record_id : String),
      isBlank base_id = false → isBlank table_id_or_name = false → isBlank record_id = true →
      airtable_list_comments apiKey http base_id table_id_or_name record_id
        = Except.ok ⟨Json.obj [], "Record ID is required", false⟩)
    ∧ (∀ (apiKey : Option String) (http : HttpRequest → HttpOutcome) (base_id table_id_or_name record_id : String),
      isBlank base_id = true →
      airtable_delete_record apiKey http base_id table_id_or_name record_id
        = Except.ok ⟨Json.obj [], "Base ID is required", false⟩)
    ∧ (∀ (apiKey : Option String) (http : HttpRequest → HttpOutcome) (base_id table_id_or_name record_id : String),
      isBlank base_id = false → isBlank table_id_or_name = true →
      airtable_delete_record apiKey http base_id table_id_or_name record_id
        = Except.ok ⟨Json.obj [], "Table ID or name is required", false⟩)
    ∧ (∀ (apiKey : Option String) (http : HttpRequest → HttpOutcome) (base_id table_id_or_name record_id : String),
      isBlank base_id = false → isBlank table_id_or_name = false → isBlank record_id = true →
      airtable_delete_record apiKey http base_id table_id_or_name record_id
        = Except.ok ⟨Json.obj [], "Record ID is required", false⟩)
    ∧ (∀ (apiKey : Option String) (http : HttpRequest → HttpOutcome) (loads : String → Except String Json) (base_id table_id_or_name record_ids : String),
      isBlank base_id = true →
      airtable_delete_multiple_records apiKey http loads base_id table_id_or_name record_ids
        = Except.ok ⟨Json.obj [], "Base ID is required", false⟩)
    ∧ (∀ (apiKey : Option String) (http : HttpRequest → HttpOutcome) (loads : String → Except String Json) (base_id table_id_or_name record_ids : String),
      isBlank base_id = false → isBlank table_id_or_name = true →
      airtable_delete_multiple_records apiKey http loads base_id table_id_or_name record_ids
        = Except.ok ⟨Json.obj [], "Table ID or name is required", false⟩)
    ∧ (∀ (apiKey : Option String) (http : HttpRequest → HttpOutcome) (loads : String → Except String Json) (base_id table_id_or_name record_ids : String),
      isBlank base_id = false → isBlank table_id_or_name = false → isBlank record_ids = true →
      airtable_delete_multiple_records apiKey http loads base_id table_id_or_name record_ids
        = Except.ok ⟨Json.obj [], "Record IDs are required", false⟩)
    ∧ (∀ (apiKey : Option String) (http : HttpRequest → HttpOutcome) (base_id table_id_or_name record_id row_comment_id : String),
      isBlank base_id = true →
      airtable_delete_comment apiKey http base_id table_id_or_name record_id row_comment_id
        = Except.ok ⟨Json.obj [], "Base ID is required", false⟩)
    ∧ (∀ (apiKey : Option String) (http : HttpRequest → HttpOutcome) (base_id table_id_or_name record_id row_comment_id : String),
      isBlank base_id = false → isBlank table_id_or_name = true →
      airtable_delete_comment apiKey http base_id table_id_or_name record_id row_comment_id
        = Except.ok ⟨Json.obj [], "Table ID or name is required", false⟩)
    ∧ (∀ (apiKey : Option String) (http : HttpRequest → HttpOutcome) (base_id table_id_or_name record_id row_comment_id : String),
      isBlank base_id = false → isBlank table_id_or_name = false → isBlank record_id = true →
      airtable_delete_comment apiKey http base_id table_id_or_name record_id row_comment_id
        = Except.ok ⟨Json.obj [], "Record ID is required", false⟩)
    ∧ (∀ (apiKey : Option String) (http : HttpRequest → HttpOutcome) (base_id table_id_or_name record_id row_comment_id : String),
      isBlank base_id = false → isBlank table_id_or_name = false → isBlank record_id = false → isBlank row_comment_id = true →
      airtable_delete_comment apiKey http base_id table_id_or_name record_id row_comment_id
        = Except.ok ⟨Json.obj [], "Row comment ID is required", false⟩)
    ∧ (∀ (apiKey : Option String) (http : HttpRequest → HttpOutcome) (loads : String → Except String Json) (base_id table_id_or_name record_id fields : String) (return_fields_by_field_id : Bool),
      isBlank base_id = true →
      airtable_update_record apiKey http loads base_id table_id_or_name record_id fields return_fields_by_field_id
        = Except.ok ⟨Json.obj [], "Base ID is required", false⟩)
    ∧ (∀ (apiKey : Option String) (http : HttpRequest → HttpOutcome) (loads : String → Except String Json) (base_id table_id_or_name record_id fields : String) (return_fields_by_field_id : Bool),
      isBlank base_id = false → isBlank table_id_or_name = true →
      airtable_update_record apiKey http loads base_id table_id_or_name record_id fields return_fields_by_field_id
        = Except.ok ⟨Json.obj [], "Table ID or name is required", false⟩)
    ∧ (∀ (apiKey : Option String) (http : HttpRequest → HttpOutcome) (loads : String → Except String Json) (base_id table_id_or_name record_id fields : String) (return_fields_by_field_id : Bool),
      isBlank base_id = false → isBlank table_id_or_name = false → isBlank record_id = true →
      airtable_update_record apiKey http loads base_id table_id_or_name record_id fields return_fields_by_field_id
        = Except.ok ⟨Json.obj [], "Record ID is required", false⟩)
    ∧ (∀ (apiKey : Option String) (http : HttpRequest → HttpOutcome) (loads : String → Except String Json) (base_id table_id_or_name record_id fields : String) (return_fields_by_field_id : Bool),
      isBlank base_id = false → isBlank table_id_or_name = false → isBlank record_id = false → isBlank fields = true →
      airtable_update_record apiKey http loads base_id table_id_or_name record_id fields return_fields_by_field_id
        = Except.ok ⟨Json.obj [], "Fields data is required", false⟩)
    ∧ (∀ (apiKey : Option String) (http : HttpRequest → HttpOutcome) (loads : String → Except String Json) (base_id table_id_or_name records : String),
      isBlank base_id = true →
      airtable_update_multiple_records apiKey http loads base_id table_id_or_name records
        = Except.ok ⟨Json.obj [], "Base ID is required", false⟩)
    ∧ (∀ (apiKey : Option String) (http : HttpRequest → HttpOutcome) (loads : String → Except String Json) (base_id table_id_or_name records : String),
      isBlank base_id = false → isBlank table_id_or_name = true →
      airtable_update_multiple_records apiKey http loads base_id table_id_or_name records
        = Except.ok ⟨Json.obj [], "Table ID or name is required", false⟩)
    ∧ (∀ (apiKey : Option String) (http : HttpRequest → HttpOutcome) (loads : String → Except String Json) (base_id table_id_or_name records : String),
      isBlank base_id = false → isBlank table_id_or_name = false → isBlank records = true →
      airtable_update_multiple_records apiKey http loads base_id table_id_or_name records
        = Except.ok ⟨Json.obj [], "Records data is required", false⟩)
    ∧ (∀ (apiKey : Option String) (http : HttpRequest → HttpOutcome) (loads : String → Except String Json) (base_id table_id_or_name cell_format fields filter_by_formula : String) (max_records : Int) (offset : String) (page_size : Int) (record_metadata : String) (return_fields_by_field_id : Bool) (sort time_zone user_locale view : String),
      isBlank base_id = true →
      airtable_list_records apiKey http loads base_id table_id_or_name cell_format fields filter_by_formula max_records offset page_size record_metadata return_fields_by_field_id sort time_zone user_locale view
        = Except.ok ⟨Json.obj [], "Base ID is required", false⟩)
    ∧ (∀ (apiKey : Option String) (http : HttpRequest → HttpOutcome) (loads : String → Except String Json) (base_id table_id_or_name cell_format fields filter_by_formula : String) (max_records : Int) (offset : String) (page_size : Int) (record_metadata : String) (return_fields_by_field_id : Bool) (sort time_zone user_locale view : String),
      isBlank base_id = false → isBlank table_id_or_name = true →
      airtable_list_records apiKey http loads base_id table_id_or_name cell_format fields filter_by_formula max_records offset page_size record_metadata return_fields_by_field_id sort time_zone user_locale view
        = Except.ok ⟨Json.obj [], "Table ID or name is required", false⟩) := by
  refine ⟨?_, ?_, ?_, ?_, ?_, ?_, ?_, ?_, ?_, ?_, ?_, ?_, ?_, ?_, ?_, ?_, ?_, ?_, ?_, ?_, ?_, ?_, ?_, ?_, ?_, ?_, ?_, ?_, ?_, ?_, ?_, ?_, ?_, ?_, ?_, ?_, ?_, ?_, ?_, ?_, ?_, ?_, ?_, ?_, ?_⟩
  · intro k http loads pyHash name tables workspace_id hk hp
    unfold airtable_create_base airtable_create_base_impl
    rw [get_client_some k hk, hp]
    all_goals rfl
  · intro k http loads pyHash name tables workspace_id hk h0 hp
    unfold airtable_create_base airtable_create_base_impl
    rw [get_client_some k hk, h0, hp]
    all_goals rfl
  · intro k http loads pyHash name tables workspace_id hk h0 h1 hp
    unfold airtable_create_base airtable_create_base_impl
    rw [get_client_some k hk, h0, h1, hp]
    all_goals rfl
  · intro apiKey http base_id record_id table_id_or_name text hp
    unfold airtable_create_comment airtable_create_comment_impl
    rw [hp]
    all_goals rfl
  · intro apiKey http base_id record_id table_id_or_name text h0 hp
    unfold airtable_create_comment airtable_create_comment_impl
    rw [h0, hp]
    all_goals rfl
  · intro apiKey http base_id record_id table_id_or_name text h0 h1 hp
    unfold airtable_create_comment airtable_create_comment_impl
    rw [h0, h1, hp]
    all_goals rfl
  · intro apiKey http base_id record_id table_id_or_name text h0 h1 h2 hp
    unfold airtable_create_comment airtable_create_comment_impl
    rw [h0, h1, h2, hp]
    all_goals rfl
  · intro apiKey http base_id table_id name type description options hp
    unfold airtable_create_field airtable_create_field_impl
    rw [hp]
    all_goals rfl
  · intro apiKey http base_id table_id name type description options h0 hp
    unfold airtable_create_field airtable_create_field_impl
    rw [h0, hp]
    all_goals rfl
  · intro apiKey http base_id table_id name type description options h0 h1 hp
    unfold airtable_create_field airtable_create_field_impl
    rw [h0, h1, hp]
    all_goals rfl
  · intro apiKey http loads base_id table_id_or_name records hp
    unfold airtable_create_multiple_records airtable_create_multiple_records_impl
    rw [hp]
    all_goals rfl
  · intro apiKey http loads base_id table_id_or_name records h0 hp
    unfold airtable_create_multiple_records airtable_create_multiple_records_impl
    rw [h0, hp]
    all_goals rfl
  · intro apiKey http loads base_id table_id_or_name records h0 h1 hp
    unfold airtable_create_multiple_records airtable_create_multiple_records_impl
    rw [h0, h1, hp]
    all_goals rfl
  · intro apiKey http loads base_id table_id_or_name fields hp
    unfold airtable_create_record airtable_create_record_impl
    rw [hp]
    all_goals rfl
  · intro apiKey http loads base_id table_id_or_name fields h0 hp
    unfold airtable_create_record airtable_create_record_impl
    rw [h0, hp]
    all_goals rfl
  · intro apiKey http loads base_id table_id_or_name fields h0 h1 hp
    unfold airtable_create_record airtable_create_record_impl
    rw [h0, h1, hp]
    all_goals rfl
  · intro apiKey http loads base_id name fields description hp
    unfold airtable_create_table airtable_create_table_impl
    rw [hp]
    all_goals rfl
  · intro apiKey http loads base_id name fields description h0 hp
    unfold airtable_create_table airtable_create_table_impl
    rw [h0, hp]
    all_goals rfl
  · intro apiKey http loads base_id name fields description h0 h1 hp
    unfold airtable_create_table airtable_create_table_impl
    rw [h0, h1, hp]
    all_goals rfl
  · intro apiKey http base_id hp
    unfold airtable_get_base_schema airtable_get_base_schema_impl
    rw [hp]
    all_goals rfl
  · intro apiKey http base_id table_id_or_name record_id cell_format return_fields_by_field_id hp
    unfold airtable_get_record airtable_get_record_impl
    rw [hp]
    all_goals rfl
  · intro apiKey http base_id table_id_or_name record_id cell_format return_fields_by_field_id h0 hp
    unfold airtable_get_record airtable_get_record_impl
    rw [h0, hp]
    all_goals rfl
  · intro apiKey http base_id table_id_or_name record_id cell_format return_fields_by_field_id h0 h1 hp
    unfold airtable_get_record airtable_get_record_impl
    rw [h0, h1, hp]
    all_goals rfl
  · intro apiKey http base_id table_id_or_name record_id hp
    unfold airtable_list_comments airtable_list_comments_impl
    rw [hp]
    all_goals rfl
  · intro apiKey http base_id table_id_or_name record_id h0 hp
    unfold airtable_list_comments airtable_list_comments_impl
    rw [h0, hp]
    all_goals rfl
  · intro apiKey http base_id table_id_or_name record_id h0 h1 hp
    unfold airtable_list_comments airtable_list_comments_impl
    rw [h0, h1, hp]
    all_goals rfl
  · intro apiKey http base_id table_id_or_name record_id hp
    unfold airtable_delete_record airtable_delete_record_impl
    rw [hp]
    all_goals rfl
  · intro apiKey http base_id table_id_or_name record_id h0 hp
    unfold airtable_delete_record airtable_delete_record_impl
    rw [h0, hp]
    all_goals rfl
  · intro apiKey http base_id table_id_or_name record_id h0 h1 hp
    unfold airtable_delete_record airtable_delete_record_impl
    rw [h0, h1, hp]
    all_goals rfl
  · intro apiKey http loads base_id table_id_or_name record_ids hp
    unfold airtable_delete_multiple_records airtable_delete_multiple_records_impl
    rw [hp]
    all_goals rfl
  · intro apiKey http loads base_id table_id_or_name record_ids h0 hp
    unfold airtable_delete_multiple_records airtable_delete_multiple_records_impl
    rw [h0, hp]
    all_goals rfl
  · intro apiKey http loads base_id table_id_or_name record_ids h0 h1 hp
    unfold airtable_delete_multiple_records airtable_delete_multiple_records_impl
    rw [h0, h1, hp]
    all_goals rfl
  · intro apiKey http base_id table_id_or_name record_id row_comment_id hp
    unfold airtable_delete_comment airtable_delete_comment_impl
    rw [hp]
    all_goals rfl
  · intro apiKey http base_id table_id_or_name record_id row_comment_id h0 hp
    unfold airtable_delete_comment airtable_delete_comment_impl
    rw [h0, hp]
    all_goals rfl
  · intro apiKey http base_id table_id_or_name record_id row_comment_id h0 h1 hp
    unfold airtable_delete_comment airtable_delete_comment_impl
    rw [h0, h1, hp]
    all_goals rfl
  · intro apiKey http base_id table_id_or_name record_id row_comment_id h0 h1 h2 hp
    unfold airtable_delete_comment airtable_delete_comment_impl
    rw [h0, h1, h2, hp]
    all_goals rfl
  · intro apiKey http loads base_id table_id_or_name record_id fields return_fields_by_field_id hp
    unfold airtable_update_record airtable_update_record_impl
    rw [hp]
    all_goals rfl
  · intro apiKey http loads base_id table_id_or_name record_id fields return_fields_by_field_id h0 hp
    unfold airtable_update_record airtable_update_record_impl
    rw [h0, hp]
    all_goals rfl
  · intro apiKey http loads base_id table_id_or_name record_id fields return_fields_by_field_id h0 h1 hp
    unfold airtable_update_record airtable_update_record_impl
    rw [h0, h1, hp]
    all_goals rfl
  · intro apiKey http loads base_id table_id_or_name record_id fields return_fields_by_field_id h0 h1 h2 hp
    unfold airtable_update_record airtable_update_record_impl
    rw [h0, h1, h2, hp]
    all_goals rfl
  · intro apiKey http loads base_id table_id_or_name records hp
    unfold airtable_update_multiple_records airtable_update_multiple_records_impl
    rw [hp]
    all_goals rfl
  · intro apiKey http loads base_id table_id_or_name records h0 hp
    unfold airtable_update_multiple_records airtable_update_multiple_records_impl
    rw [h0, hp]
    all_goals rfl
  · intro apiKey http loads base_id table_id_or_name records h0 h1 hp
    unfold airtable_update_multiple_records airtable_update_multiple_records_impl
    rw [h0, h1, hp]
    all_goals rfl
  · intro apiKey http loads base_id table_id_or_name cell_format fields filter_by_formula max_records offset page_size record_metadata return_fields_by_field_id sort time_zone user_locale view hp
    unfold airtable_list_records airtable_list_records_impl
    rw [hp]
    all_goals rfl
  · intro apiKey http loads base_id table_id_or_name cell_format fields filter_by_formula max_records offset page_size record_metadata return_fields_by_field_id sort time_zone user_locale view h0 hp
    unfold airtable_list_records airtable_list_records_impl
    rw [h0, hp]
    all_goals rfl

/-- C3 witness: airtable_create_comment with a whitespace-only base id is
rejected naming the Base ID parameter. -/
theorem C3_blank_required_parameter_witness :
    airtable_create_comment (some "key") (fun _ => HttpOutcome.requestExc "down")
        "  " "rec1" "tbl1" "hello"
      = Except.ok ⟨Json.obj [], "Base ID is required", false⟩ :=
  C3_blank_required_parameter.2.2.2.1 (some "key") (fun _ => HttpOutcome.requestExc "down")
    "  " "rec1" "tbl1" "hello" (by decide)

/-- C4 counterexample: the claim fails as stated because
airtable_create_base looks up the client before decoding the tables
parameter; with no credential configured and syntactically invalid JSON
the error is the unexpected-error message, not the Invalid JSON format
message carrying the decoder text. -/
theorem C4_counterexample :
    (airtable_create_base none (fun _ => HttpOutcome.requestExc "down")
        (fun _ => Except.error "Expecting value: line 1 column 1 (char 0)") (fun _ => 0)
        "Base" "not json" "wsp"
      = Except.ok noKeyEnvelope)
    ∧ strContains noKeyEnvelope.error "Invalid JSON format" = false :=
  ⟨rfl, by decide⟩

/-- C4 amended: for every tool accepting a JSON-string parameter,
syntactically invalid JSON yields the message Invalid JSON format for
that parameter carrying the decoder text, and a decoded value of the
wrong shape yields the shape-specific message, in both cases with empty
data and successful false and independently of the network oracle (no
network call); for the tools that look up the client before decoding
(airtable_create_base, and the optional parameters of
airtable_list_records) this holds provided the client lookup succeeds
(non-empty credential). -/
theorem C4_json_decoding_errors :
    (∀ (k : String) (http : HttpRequest → HttpOutcome) (loads : String → Except String Json) (pyHash : String → Int) (name tables workspace_id : String) (msg : String),
      pyStrEmpty k = false → isBlank name = false → isBlank workspace_id = false →
      isBlank tables = false → loads tables = Except.error msg →
      airtable_create_base (some k) http loads pyHash name tables workspace_id
        = Except.ok ⟨Json.obj [], "Invalid JSON format for tables parameter: " ++ msg, false⟩)
    ∧ (∀ (k : String) (http : HttpRequest → HttpOutcome) (loads : String → Except String Json) (pyHash : String → Int) (name tables workspace_id : String) (v : Json),
      pyStrEmpty k = false → isBlank name = false → isBlank workspace_id = false →
      isBlank tables = false → loads tables = Except.ok v → v.isArr = false →
      airtable_create_base (some k) http loads pyHash name tables workspace_id
        = Except.ok ⟨Json.obj [], "Tables must be an array of table objects", false⟩)
    ∧ (∀ (apiKey : Option String) (http : HttpRequest → HttpOutcome) (loads : String → Except String Json) (base_id table_id_or_name records : String) (msg : String),
      isBlank base_id = false → isBlank table_id_or_name = false → isBlank records = false → loads records = Except.error msg →
      airtable_create_multiple_records apiKey http loads base_id table_id_or_name records
        = Except.ok ⟨Json.obj [], "Invalid JSON format for records parameter: " ++ msg, false⟩)
    ∧ (∀ (apiKey : Option String) (http : HttpRequest → HttpOutcome) (loads : String → Except String Json) (base_id table_id_or_name records : String) (v : Json),
      isBlank base_id = false → isBlank table_id_or_name = false → isBlank records = false → loads records = Except.ok v → v.isArr = false →
      airtable_create_multiple_records apiKey http loads base_id table_id_or_name records
        = Except.ok ⟨Json.obj [], "Records must be an array of record objects", false⟩)
    ∧ (∀ (apiKey : Option String) (http : HttpRequest → HttpOutcome) (loads : String → Except String Json) (base_id table_id_or_name fields : String) (msg : String),
      isBlank base_id = false → isBlank table_id_or_name = false → isBlank fields = false → loads fields = Except.error msg →
      airtable_create_record apiKey http loads base_id table_id_or_name fields
        = Except.ok ⟨Json.obj [], "Invalid JSON format for fields parameter: " ++ msg, false⟩)
    ∧ (∀ (apiKey : Option String) (http : HttpRequest → HttpOutcome) (loads : String → Except String Json) (base_id table_id_or_name fields : String) (v : Json),
      isBlank base_id = false → isBlank table_id_or_name = false → isBlank fields = false → loads fields = Except.ok v → v.isObj = false →
      airtable_create_record apiKey http loads base_id table_id_or_name fields
        = Except.ok ⟨Json.obj [], "Fields must be a JSON object", false⟩)
    ∧ (∀ (apiKey : Option String) (http : HttpRequest → HttpOutcome) (loads : String → Except String Json) (base_id name fields description : String) (msg : String),
      isBlank base_id = false → isBlank name = false → isBlank fields = false → loads fields = Except.error msg →
      airtable_create_table apiKey http loads base_id name fields description
        = Except.ok ⟨Json.obj [], "Invalid JSON format for fields parameter: " ++ msg, false⟩)
    ∧ (∀ (apiKey : Option String) (http : HttpRequest → HttpOutcome) (loads : String → Except String Json) (base_id name fields description : String) (v : Json),
      isBlank base_id = false → isBlank name = false → isBlank fields = false → loads fields = Except.ok v → v.isArr = false →
      airtable_create_table apiKey http loads base_id name fields description
        = Except.ok ⟨Json.obj [], "Fields must be an array of field objects", false⟩)
    ∧ (∀ (apiKey : Option String) (http : HttpRequest → HttpOutcome) (loads : String → Except String Json) (base_id table_id_or_name record_ids : String) (msg : String),
      isBlank base_id = false → isBlank table_id_or_name = false → isBlank record_ids = false → loads record_ids = Except.error msg →
      airtable_delete_multiple_records apiKey http loads base_id table_id_or_name record_ids
        = Except.ok ⟨Json.obj [], "Invalid JSON format for record_ids parameter: " ++ msg, false⟩)
    ∧ (∀ (apiKey : Option String) (http : HttpRequest → HttpOutcome) (loads : String → Except String Json) (base_id table_id_or_name record_ids : String) (v : Json),
      isBlank base_id = false → isBlank table_id_or_name = false → isBlank record_ids = false → loads record_ids = Except.ok v → v.isArr = false →
      airtable_delete_multiple_records apiKey http loads base_id table_id_or_name record_ids
        = Except.ok ⟨Json.obj [], "Record IDs must be an array of record ID strings", false⟩)
    ∧ (∀ (apiKey : Option String) (http : HttpRequest → HttpOutcome) (loads : String → Except String Json) (base_id table_id_or_name record_id fields : String) (return_fields_by_field_id : Bool) (msg : String),
      isBlank base_id = false → isBlank table_id_or_name = false → isBlank record_id = false → isBlank fields = false → loads fields = Except.error msg →
      airtable_update_record apiKey http loads base_id table_id_or_name record_id fields return_fields_by_field_id
        = Except.ok ⟨Json.obj [], "Invalid JSON format for fields parameter: " ++ msg, false⟩)
    ∧ (∀ (apiKey : Option String) (http : HttpRequest → HttpOutcome) (loads : String → Except String Json) (base_id table_id_or_name record_id fields : String) (return_fields_by_field_id : Bool) (v : Json),
      isBlank base_id = false → isBlank table_id_or_name = false → isBlank record_id = false → isBlank fields = false → loads fields = Except.ok v → v.isObj = false →
      airtable_update_record apiKey http loads base_id table_id_or_name record_id fields return_fields_by_field_id
        = Except.ok ⟨Json.obj [], "Fields must be a JSON object", false⟩)
    ∧ (∀ (apiKey : Option String) (http : HttpRequest → HttpOutcome) (loads : String → Except String Json) (base_id table_id_or_name records : String) (msg : String),
      isBlank base_id = false → isBlank table_id_or_name = false → isBlank records = false → loads records = Except.error msg →
      airtable_update_multiple_records apiKey http loads base_id table_id_or_name records
        = Except.ok ⟨Json.obj [], "Invalid JSON format for records parameter: " ++ msg, false⟩)
    ∧ (∀ (apiKey : Option String) (http : HttpRequest → HttpOutcome) (loads : String → Except String Json) (base_id table_id_or_name records : String) (v : Json),
      isBlank base_id = false → isBlank table_id_or_name = false → isBlank records = false → loads records = Except.ok v → v.isArr = false →
      airtable_update_multiple_records apiKey http loads base_id table_id_or_name records
        = Except.ok ⟨Json.obj [], "Records must be an array of record objects", false⟩)
    ∧ (∀ (k : String) (http : HttpRequest → HttpOutcome) (loads : String → Except String Json) (base_id table_id_or_name cell_format filter_by_formula : String) (max_records : Int) (offset : String) (page_size : Int) (return_fields_by_field_id : Bool) (time_zone user_locale view : String) (fields : String) (msg : String),
      pyStrEmpty k = false → isBlank base_id = false → isBlank table_id_or_name = false → isBlank fields = false → loads fields = Except.error msg →
      airtable_list_records (some k) http loads base_id table_id_or_name cell_format fields filter_by_formula max_records offset page_size "" return_fields_by_field_id "" time_zone user_locale view
        = Except.ok ⟨Json.obj [], "Invalid JSON format for fields parameter: " ++ msg, false⟩)
    ∧ (∀ (k : String) (http : HttpRequest → HttpOutcome) (loads : String → Except String Json) (base_id table_id_or_name cell_format filter_by_formula : String) (max_records : Int) (offset : String) (page_size : Int) (return_fields_by_field_id : Bool) (time_zone user_locale view : String) (fields : String) (v : Json),
      pyStrEmpty k = false → isBlank base_id = false → isBlank table_id_or_name = false → isBlank fields = false → loads fields = Except.ok v → v.isArr = false →
      airtable_list_records (some k) http loads base_id table_id_or_name cell_format fields filter_by_formula max_records offset page_size "" return_fields_by_field_id "" time_zone user_locale view
        = Except.ok ⟨Json.obj [], "Fields must be a JSON array", false⟩)
    ∧ (∀ (k : String) (http : HttpRequest → HttpOutcome) (loads : String → Except String Json) (base_id table_id_or_name cell_format filter_by_formula : String) (max_records : Int) (offset : String) (page_size : Int) (return_fields_by_field_id : Bool) (time_zone user_locale view : String) (sort : String) (msg : String),
      pyStrEmpty k = false → isBlank base_id = false → isBlank table_id_or_name = false → isBlank sort = false → loads sort = Except.error msg →
      airtable_list_records (some k) http loads base_id table_id_or_name cell_format "" filter_by_formula max_records offset page_size "" return_fields_by_field_id sort time_zone user_locale view
        = Except.ok ⟨Json.obj [], "Invalid JSON format for sort parameter: " ++ msg, false⟩)
    ∧ (∀ (k : String) (http : HttpRequest → HttpOutcome) (loads : String → Except String Json) (base_id table_id_or_name cell_format filter_by_formula : String) (max_records : Int) (offset : String) (page_size : Int) (return_fields_by_field_id : Bool) (time_zone user_locale view : String) (sort : String) (v : Json),
      pyStrEmpty k = false → isBlank base_id = false → isBlank table_id_or_name = false → isBlank sort = false → loads sort = Except.ok v → v.isArr = false →
      airtable_list_records (some k) http loads base_id table_id_or_name cell_format "" filter_by_formula max_records offset page_size "" return_fields_by_field_id sort time_zone user_locale view
        = Except.ok ⟨Json.obj [], "Sort must be a JSON array", false⟩)
    ∧ (∀ (k : String) (http : HttpRequest → HttpOutcome) (loads : String → Except String Json) (base_id table_id_or_name cell_format filter_by_formula : String) (max_records : Int) (offset : String) (page_size : Int) (return_fields_by_field_id : Bool) (time_zone user_locale view : String) (record_metadata : String) (msg : String),
      pyStrEmpty k = false → isBlank base_id = false → isBlank table_id_or_name = false → isBlank record_metadata = false → loads record_metadata = Except.error msg →
      airtable_list_records (some k) http loads base_id table_id_or_name cell_format "" filter_by_formula max_records offset page_size record_metadata return_fields_by_field_id "" time_zone user_locale view
        = Except.ok ⟨Json.obj [], "Invalid JSON format for record_metadata parameter: " ++ msg, false⟩)
    ∧ (∀ (k : String) (http : HttpRequest → HttpOutcome) (loads : String → Except String Json) (base_id table_id_or_name cell_format filter_by_formula : String) (max_records : Int) (offset : String) (page_size : Int) (return_fields_by_field_id : Bool) (time_zone user_locale view : String) (record_metadata : String) (v : Json),
      pyStrEmpty k = false → isBlank base_id = false → isBlank table_id_or_name = false → isBlank record_metadata = false → loads record_metadata = Except.ok v → v.isArr = false →
      airtable_list_records (some k) http loads base_id table_id_or_name cell_format "" filter_by_formula max_records offset page_size record_metadata return_fields_by_field_id "" time_zone user_locale view
        = Except.ok ⟨Json.obj [], "Record metadata must be a JSON array", false⟩) := by
  refine ⟨?_, ?_, ?_, ?_, ?_, ?_, ?_, ?_, ?_, ?_, ?_, ?_, ?_, ?_, ?_, ?_, ?_, ?_, ?_, ?_⟩
  · intro k http loads pyHash name tables workspace_id msg hk h1 h2 h3 hparse
    unfold airtable_create_base airtable_create_base_impl
    rw [get_client_some k hk, h1, h2, h3, hparse]
    all_goals rfl
  · intro k http loads pyHash name tables workspace_id v hk h1 h2 h3 hparse hv
    unfold airtable_create_base airtable_create_base_impl
    rw [get_client_some k hk, h1, h2, h3, hparse]
    cases v <;> first | rfl | (simp [Json.isArr] at hv)
  · intro apiKey http loads base_id table_id_or_name records msg h0 h1 h2 hparse
    unfold airtable_create_multiple_records airtable_create_multiple_records_impl
    rw [h0, h1, h2, hparse]
    all_goals rfl
  · intro apiKey http loads base_id table_id_or_name records v h0 h1 h2 hparse hv
    unfold airtable_create_multiple_records airtable_create_multiple_records_impl
    rw [h0, h1, h2, hparse]
    cases v <;> first | rfl | (simp [Json.isArr] at hv)
  · intro apiKey http loads base_id table_id_or_name fields msg h0 h1 h2 hparse
    unfold airtable_create_record airtable_create_record_impl
    rw [h0, h1, h2, hparse]
    all_goals rfl
  · intro apiKey http loads base_id table_id_or_name fields v h0 h1 h2 hparse hv
    unfold airtable_create_record airtable_create_record_impl
    rw [h0, h1, h2, hparse]
    cases v <;> first | rfl | (simp [Json.isObj] at hv)
  · intro apiKey http loads base_id name fields description msg h0 h1 h2 hparse
    unfold airtable_create_table airtable_create_table_impl
    rw [h0, h1, h2, hparse]
    all_goals rfl
  · intro apiKey http loads base_id name fields description v h0 h1 h2 hparse hv
    unfold airtable_create_table airtable_create_table_impl
    rw [h0, h1, h2, hparse]
    cases v <;> first | rfl | (simp [Json.isArr] at hv)
  · intro apiKey http loads base_id table_id_or_name record_ids msg h0 h1 h2 hparse
    unfold airtable_delete_multiple_records airtable_delete_multiple_records_impl
    rw [h0, h1, h2, hparse]
    all_goals rfl
  · intro apiKey http loads base_id table_id_or_name record_ids v h0 h1 h2 hparse hv
    unfold airtable_delete_multiple_records airtable_delete_multiple_records_impl
    rw [h0, h1, h2, hparse]
    cases v <;> first | rfl | (simp [Json.isArr] at hv)
  · intro apiKey http loads base_id table_id_or_name record_id fields return_fields_by_field_id msg h0 h1 h2 h3 hparse
    unfold airtable_update_record airtable_update_record_impl
    rw [h0, h1, h2, h3, hparse]
    all_goals rfl
  · intro apiKey http loads base_id table_id_or_name record_id fields return_fields_by_field_id v h0 h1 h2 h3 hparse hv
    unfold airtable_update_record airtable_update_record_impl
    rw [h0, h1, h2, h3, hparse]
    cases v <;> first | rfl | (simp [Json.isObj] at hv)
  · intro apiKey http loads base_id table_id_or_name records msg h0 h1 h2 hparse
    unfold airtable_update_multiple_records airtable_update_multiple_records_impl
    rw [h0, h1, h2, hparse]
    all_goals rfl
  · intro apiKey http loads base_id table_id_or_name records v h0 h1 h2 hparse hv
    unfold airtable_update_multiple_records airtable_update_multiple_records_impl
    rw [h0, h1, h2, hparse]
    cases v <;> first | rfl | (simp [Json.isArr] at hv)
  · intro k http loads base_id table_id_or_name cell_format filter_by_formula max_records offset page_size return_fields_by_field_id time_zone user_locale view fields msg hk h1 h2 hp hparse
    unfold airtable_list_records airtable_list_records_impl parseOptionalList
    rw [get_client_some k hk, h1, h2, hp, hparse]
    all_goals rfl
  · intro k http loads base_id table_id_or_name cell_format filter_by_formula max_records offset page_size return_fields_by_field_id time_zone user_locale view fields v hk h1 h2 hp hparse hv
    unfold airtable_list_records airtable_list_records_impl parseOptionalList
    rw [get_client_some k hk, h1, h2, hp, hparse]
    cases v <;> first | rfl | (simp [Json.isArr] at hv)
  · intro k http loads base_id table_id_or_name cell_format filter_by_formula max_records offset page_size return_fields_by_field_id time_zone user_locale view sort msg hk h1 h2 hp hparse
    unfold airtable_list_records airtable_list_records_impl parseOptionalList
    rw [get_client_some k hk, h1, h2, hp, hparse]
    all_goals rfl
  · intro k http loads base_id table_id_or_name cell_format filter_by_formula max_records offset page_size return_fields_by_field_id time_zone user_locale view sort v hk h1 h2 hp hparse hv
    unfold airtable_list_records airtable_list_records_impl parseOptionalList
    rw [get_client_some k hk, h1, h2, hp, hparse]
    cases v <;> first | rfl | (simp [Json.isArr] at hv)
  · intro k http loads base_id table_id_or_name cell_format filter_by_formula max_records offset page_size return_fields_by_field_id time_zone user_locale view record_metadata msg hk h1 h2 hp hparse
    unfold airtable_list_records airtable_list_records_impl parseOptionalList
    rw [get_client_some k hk, h1, h2, hp, hparse]
    all_goals rfl
  · intro k http loads base_id table_id_or_name cell_format filter_by_formula max_records offset page_size return_fields_by_field_id time_zone user_locale view record_metadata v hk h1 h2 hp hparse hv
    unfold airtable_list_records airtable_list_records_impl parseOptionalList
    rw [get_client_some k hk, h1, h2, hp, hparse]
    cases v <;> first | rfl | (simp [Json.isArr] at hv)

/-- C4 witness: airtable_create_record with a fields string whose decoding
fails carries the decoder message in the envelope. -/
theorem C4_json_decoding_errors_witness :
    airtable_create_record (some "key") (fun _ => HttpOutcome.requestExc "down")
        (fun _ => Except.error "Expecting value: line 1 column 1 (char 0)")
        "app1" "tbl1" "not json"
      = Except.ok ⟨Json.obj [],
          "Invalid JSON format for fields parameter: "
            ++ "Expecting value: line 1 column 1 (char 0)", false⟩ :=
  C4_json_decoding_errors.2.2.2.2.1 (some "key") (fun _ => HttpOutcome.requestExc "down")
    (fun _ => Except.error "Expecting value: line 1 column 1 (char 0)")
    "app1" "tbl1" "not json" "Expecting value: line 1 column 1 (char 0)"
    (by decide) (by decide) (by decide) rfl

/-- The first-failing index of a per-entry check, computed from a bad
entry at index i whose predecessors all pass. -/
theorem firstFailing_some (problem : Json → Option String) (l : List Json) (i : Nat)
    (msg : String) (hi : i < l.length)
    (hbad : problem (l.get ⟨i, hi⟩) = some msg)
    (hgood : ∀ j (hj : j < l.length), j < i → problem (l.get ⟨j, hj⟩) = none) :
    firstFailing problem l = some (i, msg) := by
  induction l generalizing i with
  | nil => exact absurd hi (Nat.not_lt_zero i)
  | cons x xs ih =>
    cases i with
    | zero =>
      simp only [List.get] at hbad
      simp [firstFailing, hbad]
    | succ n =>
      have hx : problem x = none := hgood 0 (Nat.succ_pos xs.length) (Nat.succ_pos n)
      have hbadn : problem (xs.get ⟨n, Nat.lt_of_succ_lt_succ hi⟩) = some msg := hbad
      have hgoodn : ∀ j (hj : j < xs.length), j < n → problem (xs.get ⟨j, hj⟩) = none :=
        fun j hj hlt => hgood (j + 1) (Nat.succ_lt_succ hj) (Nat.succ_lt_succ hlt)
      have hrest := ih n (Nat.lt_of_succ_lt_succ hi) hbadn hgoodn
      simp [firstFailing, hx, hrest]

/-- C8 counterexample: the claim fails as stated because
airtable_create_base looks up the client before validating the decoded
list; with no credential configured and a non-object entry at index 0 it
returns the unexpected-error envelope, whose message does not cite the
offending index. -/
theorem C8_counterexample :
    (airtable_create_base none (fun _ => HttpOutcome.requestExc "down")
        (fun _ => Except.ok (Json.arr [Json.obj []])) (fun _ => 0) "Base" "[ bad ]" "wsp"
      = Except.ok noKeyEnvelope)
    ∧ strContains noKeyEnvelope.error "index 0" = false :=
  ⟨rfl, by decide⟩

/-- C8 amended: airtable_create_table rejects a decoded field list whose
first offending entry (not an object, or missing name or type) sits at
index i, citing i, unconditionally; airtable_create_base does the same for
a table entry missing name or fields provided the client lookup succeeds
(credential configured).  No network call occurs (the result is fixed for
every network oracle). -/
theorem C8_bad_entry_cites_index :
    (∀ apiKey http loads (base_id name fields description : String) (l : List Json) (i : Nat)
        (hi : i < l.length),
      isBlank base_id = false → isBlank name = false → isBlank fields = false →
      loads fields = Except.ok (Json.arr l) →
      ((l.get ⟨i, hi⟩).isObj = false ∨ (l.get ⟨i, hi⟩).hasKey "name" = false
        ∨ (l.get ⟨i, hi⟩).hasKey "type" = false) →
      (∀ j (hj : j < l.length), j < i → fieldEntryProblem (l.get ⟨j, hj⟩) = none) →
      airtable_create_table apiKey http loads base_id name fields description
        = Except.ok ⟨Json.obj [], "Field at index " ++ toString i
            ++ " must have \x27name\x27 and \x27type\x27 properties", false⟩)
    ∧ (∀ (k : String) http loads pyHash (name tables workspace_id : String) (l : List Json)
        (i : Nat) (hi : i < l.length),
      pyStrEmpty k = false →
      isBlank name = false → isBlank workspace_id = false → isBlank tables = false →
      loads tables = Except.ok (Json.arr l) →
      ((l.get ⟨i, hi⟩).isObj = false ∨ (l.get ⟨i, hi⟩).hasKey "name" = false
        ∨ (l.get ⟨i, hi⟩).hasKey "fields" = false) →
      (∀ j (hj : j < l.length), j < i → tableEntryProblem (l.get ⟨j, hj⟩) = none) →
      airtable_create_base (some k) http loads pyHash name tables workspace_id
        = Except.ok ⟨Json.obj [], "Table at index " ++ toString i
            ++ " must have \x27name\x27 and \x27fields\x27 properties", false⟩) := by
  constructor
  · intro apiKey http loads base_id name fields description l i hi hb hn hf hparse hbad hgood
    have hprob : fieldEntryProblem (l.get ⟨i, hi⟩)
        = some " must have \x27name\x27 and \x27type\x27 properties" := by
      simp only [List.get_eq_getElem] at hbad
      rcases hbad with h | h | h <;> simp [fieldEntryProblem, h]
    have hff := firstFailing_some fieldEntryProblem l i _ hi hprob hgood
    simp [airtable_create_table, airtable_create_table_impl, hb, hn, hf, hparse, hff, catchAll]
  · intro k http loads pyHash name tables workspace_id l i hi hk hn hw ht hparse hbad hgood
    have hprob : tableEntryProblem (l.get ⟨i, hi⟩)
        = some " must have \x27name\x27 and \x27fields\x27 properties" := by
      simp only [List.get_eq_getElem] at hbad
      rcases hbad with h | h | h <;> simp [tableEntryProblem, h]
    have hff := firstFailing_some tableEntryProblem l i _ hi hprob hgood
    simp [airtable_create_base, airtable_create_base_impl, get_airtable_client, hk, hn, hw,
      ht, hparse, hff, catchAll, createBaseCatchApi]

/-- C8 witness: create_table with a single empty-object field entry is
rejected citing index 0. -/
theorem C8_bad_entry_cites_index_witness :
    airtable_create_table (some "key") (fun _ => HttpOutcome.requestExc "down")
        (fun _ => Except.ok (Json.arr [Json.obj []])) "app1" "Tasks" "[ fields ]" ""
      = Except.ok ⟨Json.obj [], "Field at index " ++ toString 0
          ++ " must have \x27name\x27 and \x27type\x27 properties", false⟩ :=
  C8_bad_entry_cites_index.1 (some "key") (fun _ => HttpOutcome.requestExc "down")
    (fun _ => Except.ok (Json.arr [Json.obj []])) "app1" "Tasks" "[ fields ]" ""
    [Json.obj []] 0 (by decide) (by decide) (by decide) (by decide) rfl
    (Or.inr (Or.inl (by decide)))
    (fun j hj hlt => absurd hlt (Nat.not_lt_zero j))

/-- C5: airtable_delete_multiple_records rejects an empty record-ID list
and a list of more than 10 entries before any network interaction (the
result is a fixed error envelope for every network oracle), and accepts a
list of 1 to 10 non-blank string IDs: with a credential configured it
forwards the list to the client (the result depends on the network oracle
only through the delete request carrying the encoded IDs) and on an
upstream success body it returns the success envelope echoing the list. -/
theorem C5_delete_multiple_records_bounds :
    (∀ apiKey http loads (base_id table_id_or_name record_ids : String),
      isBlank base_id = false → isBlank table_id_or_name = false →
      isBlank record_ids = false →
      loads record_ids = Except.ok (Json.arr []) →
      airtable_delete_multiple_records apiKey http loads base_id table_id_or_name record_ids
        = Except.ok ⟨Json.obj [], "At least one record ID is required", false⟩)
    ∧ (∀ apiKey http loads (base_id table_id_or_name record_ids : String) (l : List Json),
      isBlank base_id = false → isBlank table_id_or_name = false →
      isBlank record_ids = false →
      loads record_ids = Except.ok (Json.arr l) →
      10 < l.length →
      airtable_delete_multiple_records apiKey http loads base_id table_id_or_name record_ids
        = Except.ok ⟨Json.obj [], "Maximum 10 records can be deleted at once", false⟩)
    ∧ (∀ (k : String) loads (base_id table_id_or_name record_ids : String) (l : List Json)
        (recs : List Json),
      pyStrEmpty k = false →
      isBlank base_id = false → isBlank table_id_or_name = false →
      isBlank record_ids = false →
      loads record_ids = Except.ok (Json.arr l) →
      l.length ≠ 0 → ¬ (10 < l.length) →
      (∀ x ∈ l, ∃ s, x = Json.str s ∧ isBlank s = false) →
      airtable_delete_multiple_records (some k)
          (fun _ => HttpOutcome.ok (Json.obj [("records", Json.arr recs)]))
          loads base_id table_id_or_name record_ids
        = Except.ok ⟨Json.obj [
            ("deleted_records", Json.arr recs),
            ("deleted_count", Json.num (Int.ofNat recs.length)),
            ("requested_count", Json.num (Int.ofNat l.length)),
            ("base_id", Json.str base_id),
            ("table_id_or_name", Json.str table_id_or_name),
            ("record_ids", Json.arr l),
            ("status", Json.str "records_deleted"),
            ("message", Json.str ("Successfully deleted "
              ++ toString (Int.ofNat recs.length) ++ " records"))],
            "", true⟩)
    ∧ (∀ (k : String) (http http' : HttpRequest → HttpOutcome) loads
        (base_id table_id_or_name record_ids : String) (l : List Json),
      pyStrEmpty k = false →
      isBlank base_id = false → isBlank table_id_or_name = false →
      isBlank record_ids = false →
      loads record_ids = Except.ok (Json.arr l) →
      l.length ≠ 0 → ¬ (10 < l.length) →
      (∀ x ∈ l, ∃ s, x = Json.str s ∧ isBlank s = false) →
      http (deleteMultipleRequest (clientOf k) (pyStrip base_id) (pyStrip table_id_or_name) l)
        = http' (deleteMultipleRequest (clientOf k) (pyStrip base_id)
            (pyStrip table_id_or_name) l) →
      airtable_delete_multiple_records (some k) http loads base_id table_id_or_name record_ids
        = airtable_delete_multiple_records (some k) http' loads base_id table_id_or_name
            record_ids) := by
  refine ⟨?_, ?_, ?_, ?_⟩
  · intro apiKey http loads base_id table_id_or_name record_ids hb ht hr hparse
    simp [airtable_delete_multiple_records, airtable_delete_multiple_records_impl,
      hb, ht, hr, hparse, catchAll]
  · intro apiKey http loads base_id table_id_or_name record_ids l hb ht hr hparse hlen
    have h0 : (l.length == 0) = false := by
      simp only [beq_eq_false_iff_ne, ne_eq]
      omega
    simp [airtable_delete_multiple_records, airtable_delete_multiple_records_impl,
      hb, ht, hr, hparse, h0, hlen, catchAll]
  · intro k loads base_id table_id_or_name record_ids l recs hk hb ht hr hparse h1 h10 hids
    have h0 : (l.length == 0) = false := by
      simp only [beq_eq_false_iff_ne, ne_eq]
      omega
    have hbad : firstFailing recordIdProblem l = none :=
      firstFailing_none_of _ _ (fun x hx => by
        obtain ⟨s, rfl, hs⟩ := hids x hx
        simp [recordIdProblem, pyStr, Json.isStr, hs])
    simp [airtable_delete_multiple_records, airtable_delete_multiple_records_impl,
      hb, ht, hr, hparse, h0, h10, hbad, hk, get_airtable_client, clientOf,
      AirtableClient.delete_multiple_records, deleteMultipleRequest, handleResponse,
      pyGet, pyLen, List.lookup, catchAll]
  · intro k http http' loads base_id table_id_or_name record_ids l hk hb ht hr hparse h1 h10
      hids heq
    have h0 : (l.length == 0) = false := by
      simp only [beq_eq_false_iff_ne, ne_eq]
      omega
    have hbad : firstFailing recordIdProblem l = none :=
      firstFailing_none_of _ _ (fun x hx => by
        obtain ⟨s, rfl, hs⟩ := hids x hx
        simp [recordIdProblem, pyStr, Json.isStr, hs])
    simp only [airtable_delete_multiple_records, airtable_delete_multiple_records_impl,
      hb, ht, hr, hparse, h0, h10, hbad, hk, get_airtable_client,
      AirtableClient.delete_multiple_records, Bool.false_eq_true, if_false, ite_false,
      Bool.false_eq_true]
    rw [heq]

/-- C5 witness: one record id rec1 is accepted and the upstream success
body with one deleted record is echoed. -/
theorem C5_delete_multiple_records_bounds_witness :
    airtable_delete_multiple_records (some "key")
        (fun _ => HttpOutcome.ok (Json.obj [("records", Json.arr [Json.str "rec1"])]))
        (fun _ => Except.ok (Json.arr [Json.str "rec1"]))
        "app1" "tbl1" "[ ids json ]"
      = Except.ok ⟨Json.obj [
          ("deleted_records", Json.arr [Json.str "rec1"]),
          ("deleted_count", Json.num (Int.ofNat [Json.str "rec1"].length)),
          ("requested_count", Json.num (Int.ofNat [Json.str "rec1"].length)),
          ("base_id", Json.str "app1"),
          ("table_id_or_name", Json.str "tbl1"),
          ("record_ids", Json.arr [Json.str "rec1"]),
          ("status", Json.str "records_deleted"),
          ("message", Json.str ("Successfully deleted "
            ++ toString (Int.ofNat [Json.str "rec1"].length) ++ " records"))],
          "", true⟩ :=
  C5_delete_multiple_records_bounds.2.2.1 "key"
    (fun _ => Except.ok (Json.arr [Json.str "rec1"]))
    "app1" "tbl1" "[ ids json ]" [Json.str "rec1"] [Json.str "rec1"]
    (by decide) (by decide) (by decide) (by decide) rfl
    (by decide) (by decide)
    (by
      intro x hx
      simp at hx
      subst hx
      exact ⟨"rec1", rfl, by decide⟩)

/-- C6 witness: the specification scenario
create_base("Test", tables decoding to one table named T with empty
fields, "wsp123"). -/
theorem C6_create_base_always_unsuccessful_witness :
    airtable_create_base (some "key") (fun _ => HttpOutcome.requestExc "down")
      (fun _ => Except.ok (Json.arr [Json.obj [("name", Json.str "T"), ("fields", Json.arr [])]]))
      (fun _ => 7) "Test" "[ tables json ]" "wsp123"
      = Except.ok ⟨createBaseData "Test" "wsp123"
          [Json.obj [("name", Json.str "T"), ("fields", Json.arr [])]] (fun _ => 7), "", false⟩ :=
  (C6_create_base_always_unsuccessful "key" (fun _ => HttpOutcome.requestExc "down")
    (fun _ => Except.ok (Json.arr [Json.obj [("name", Json.str "T"), ("fields", Json.arr [])]]))
    (fun _ => 7) "Test" "[ tables json ]" "wsp123"
    [Json.obj [("name", Json.str "T"), ("fields", Json.arr [])]]
    (by decide) (by decide) (by decide) (by decide) rfl
    (by intro x hx; simp at hx; subst hx; exact ⟨rfl, rfl, rfl⟩)).1

